import Mathlib

/-!
# Verification of the SVG icon extraction engine

A shallow embedding of the icon-extraction components of the icon-vault-builder
repository, together with theorems settling the specification claims.

The browser DOM is modelled by a pure tree of elements (`XmlNode`): text nodes
are irrelevant to every function modelled here (the extractors only query,
clone and serialize element structure and attributes).  `DOMParser` output is
modelled as an already-parsed document node: the parser itself is a browser
primitive, and the code under verification only inspects its output tree
(`parsererror` marker, root `svg` element).  `getBBox` is a browser layout
primitive and is passed in as an oracle.  `Date.now()` is passed in as a
parameter `now`.
-/

/-- A DOM element: tag name, attribute list (in insertion order, as the DOM
keeps it), and child elements in document order. -/
inductive XmlNode where
  | elem (tag : String) (attrs : List (String × String)) (children : List XmlNode)

mutual

def XmlNode.decEq : (a b : XmlNode) → Decidable (a = b)
  | .elem t1 a1 c1, .elem t2 a2 c2 =>
    if ht : t1 = t2 then
      if ha : a1 = a2 then
        match decEqXmlList c1 c2 with
        | isTrue hc => isTrue (by rw [ht, ha, hc])
        | isFalse hc => isFalse (by intro h; cases h; exact hc rfl)
      else isFalse (by intro h; cases h; exact ha rfl)
    else isFalse (by intro h; cases h; exact ht rfl)

def decEqXmlList : (a b : List XmlNode) → Decidable (a = b)
  | [], [] => isTrue rfl
  | [], _ :: _ => isFalse (by intro h; cases h)
  | _ :: _, [] => isFalse (by intro h; cases h)
  | x :: xs, y :: ys =>
    match XmlNode.decEq x y, decEqXmlList xs ys with
    | isTrue h1, isTrue h2 => isTrue (by rw [h1, h2])
    | isFalse h1, _ => isFalse (by intro h; cases h; exact h1 rfl)
    | isTrue _, isFalse h2 => isFalse (by intro h; cases h; exact h2 rfl)

end

instance : DecidableEq XmlNode := XmlNode.decEq

def XmlNode.tag : XmlNode → String
  | .elem t _ _ => t

def XmlNode.attrs : XmlNode → List (String × String)
  | .elem _ a _ => a

def XmlNode.children : XmlNode → List XmlNode
  | .elem _ _ cs => cs

def attrLookup (a : List (String × String)) (k : String) : Option String :=
  (a.find? (fun p => p.1 == k)).map (fun p => p.2)

/-- `element.getAttribute(k)`: the first attribute named `k`, if any. -/
def XmlNode.getAttribute (n : XmlNode) (k : String) : Option String :=
  attrLookup n.attrs k

/-- JavaScript truthiness of `element.getAttribute(k)`: both a missing
attribute (`null`) and an empty attribute value are falsy. -/
def attrFalsy (a : List (String × String)) (k : String) : Bool :=
  match attrLookup a k with
  | none => true
  | some v => v == ""

/-- `element.setAttribute(k, v)`: replace an existing attribute in place, else
append a new one (DOM attribute order semantics). -/
def setAttr (a : List (String × String)) (k v : String) : List (String × String) :=
  if (a.find? (fun p => p.1 == k)).isSome then
    a.map (fun p => if p.1 == k then (p.1, v) else p)
  else
    a ++ [(k, v)]

mutual

/-- All strict descendants of a node, in document (pre-)order. -/
def XmlNode.descendants : XmlNode → List XmlNode
  | .elem _ _ cs => descList cs

def descList : List XmlNode → List XmlNode
  | [] => []
  | c :: rest => c :: c.descendants ++ descList rest

end

mutual

/-- Strict descendants paired with the tag of their immediate parent
(the parent information is what the child combinator `a > b` needs). -/
def XmlNode.descendantsWP : XmlNode → List (String × XmlNode)
  | .elem t _ cs => descListWP t cs

def descListWP : String → List XmlNode → List (String × XmlNode)
  | _, [] => []
  | t, c :: rest => (t, c) :: c.descendantsWP ++ descListWP t rest

end

/-- The fragment of CSS selectors the extractors use: a tag name, optionally
an attribute-presence test `tag[attr]`, optionally a direct-parent tag
(`parent > tag`). -/
structure CssSel where
  parent : Option String
  tag : String
  attr : Option String
deriving Repr, DecidableEq

def tagSel (t : String) : CssSel := ⟨none, t, none⟩

def selMatches (s : CssSel) (parentTag : String) (n : XmlNode) : Bool :=
  n.tag == s.tag
    && (match s.attr with
        | none => true
        | some a => (n.getAttribute a).isSome)
    && (match s.parent with
        | none => true
        | some p => parentTag == p)

/-- `root.querySelectorAll(sel₁, sel₂, …)`: descendants matching any of the
selectors, in document order. -/
def querySelectorAll (root : XmlNode) (sels : List CssSel) : List XmlNode :=
  (root.descendantsWP.filter (fun pn => sels.any (fun s => selMatches s pn.1 pn.2))).map
    (fun pn => pn.2)

/-- `root.querySelector(…)`: the first match in document order. -/
def querySelector (root : XmlNode) (sels : List CssSel) : Option XmlNode :=
  (querySelectorAll root sels).head?

def serializeAttrs : List (String × String) → String
  | [] => ""
  | (k, v) :: rest => " " ++ k ++ "=\"" ++ v ++ "\"" ++ serializeAttrs rest

mutual

/-- `XMLSerializer.serializeToString` / `element.outerHTML`, modelled as the
standard XML serialization of the element tree. -/
def XmlNode.serialize : XmlNode → String
  | .elem t a [] => "<" ++ t ++ serializeAttrs a ++ "/>"
  | .elem t a (c :: cs) =>
      "<" ++ t ++ serializeAttrs a ++ ">" ++ serializeList (c :: cs) ++ "</" ++ t ++ ">"

def serializeList : List XmlNode → String
  | [] => ""
  | c :: rest => c.serialize ++ serializeList rest

end

/-- `element.innerHTML`: serialization of the children only. -/
def XmlNode.innerHTML (n : XmlNode) : String := serializeList n.children

/-- JavaScript `s₁ || s₂` on strings: the empty string is falsy. -/
def jsOr (o : Option String) (d : String) : String :=
  match o with
  | some v => if v = "" then d else v
  | none => d

def chReplaceFirst (pat rep : List Char) : List Char → List Char
  | [] => []
  | c :: rest =>
    if pat.isPrefixOf (c :: rest) then rep ++ (c :: rest).drop pat.length
    else c :: chReplaceFirst pat rep rest

/-- JavaScript `String.prototype.replace` with a plain-string pattern replaces
only the first occurrence. -/
def replaceFirst (s pat rep : String) : String :=
  String.mk (chReplaceFirst pat.data rep.data s.data)

example : replaceFirst ("icons.svg") (".svg") ("") = "icons" := by decide
example : replaceFirst ("a.svg.svg") (".svg") ("") = "a.svg" := by decide

def chSplitOnSpace (cur : List Char) : List Char → List (List Char)
  | [] => [cur.reverse]
  | c :: rest =>
    if c = ' ' then cur.reverse :: chSplitOnSpace [] rest
    else chSplitOnSpace (c :: cur) rest

/-- JavaScript `s.split(' ')`. -/
def splitOnSpace (s : String) : List String :=
  (chSplitOnSpace [] s.data).map String.mk

example : splitOnSpace ("0 0 24 32") = ["0", "0", "24", "32"] := by decide

def chDigits? : List Char → Option Nat
  | [] => none
  | [c] => if c.isDigit then some (c.toNat - 48) else none
  | c :: rest =>
    match chDigits? rest, c.isDigit with
    | some n, true => some ((c.toNat - 48) * 10 ^ rest.length + n)
    | _, _ => none

/-- `Number(s)` restricted to the optionally-signed decimal integers that occur
in the modelled documents; any other string is `NaN`, modelled as `none`
(fractional values do not occur in the inputs the claims are about). -/
def jsNumber? (s : String) : Option Int :=
  match s.data with
  | '-' :: rest => (chDigits? rest).map (fun n => -(n : Int))
  | l => (chDigits? l).map (fun n => (n : Int))

example : jsNumber? ("240") = some 240 := by decide
example : jsNumber? ("-32") = some (-32) := by decide
example : jsNumber? ("24a") = none := by decide

/-- `Number(s) || d` for the numeric fields the extractors read out of
attribute strings: a string that does not parse as a number (`NaN`), parses to
`0`, or is absent, falls back to the default. -/
def jsNumOr (o : Option String) (d : Int) : Int :=
  match o.bind jsNumber? with
  | some v => if v = 0 then d else v
  | none => d

/-- JavaScript `s.trim()`. -/
def jsTrim (s : String) : String :=
  String.mk (((s.data.dropWhile (fun c => c.isWhitespace)).reverse.dropWhile
    (fun c => c.isWhitespace)).reverse)

example : jsTrim ("  a b  ") = "a b" := by decide

/-- JavaScript `s.toLowerCase()` (ASCII, which is all the inputs contain). -/
def jsToLower (s : String) : String :=
  String.mk (s.data.map Char.toLower)

def ns : String := "http://www.w3.org/2000/svg"

/-- The output unit of extraction (`ExtractedIcon` in the source).  The
`dimensions` object is split into `width`/`height`; the `type: 'extracted'`
UI discriminator some iterations carry is omitted (no claim concerns it). -/
structure ExtractedIcon where
  id : String
  svgContent : String
  name : String
  category : String
  description : String
  keywords : List String
  license : String
  author : String
  width : Int
  height : Int
  fileSize : Nat
deriving Repr, DecidableEq

namespace IconExtractor

/-- The tags the visibility-repair pass of `createIcon` selects
(source line 77: `'path, circle, rect, polygon, line, ellipse'`). -/
def primRepairTags : List String := ["path", "circle", "rect", "polygon", "line", "ellipse"]

/-- First repair statement (IconExtractor.tsx lines 79-81): if neither `fill`
nor `stroke` is (truthily) present, set `fill="currentColor"`. -/
def fixFill (a : List (String × String)) : List (String × String) :=
  if attrFalsy a ("fill") && attrFalsy a ("stroke") then
    setAttr a ("fill") ("currentColor")
  else a

/-- Second repair statement (lines 82-85), reading the attributes as left by
the first: if `fill` is exactly `"none"` and `stroke` is absent, set
`stroke="currentColor"` and `stroke-width="1"`. -/
def fixStroke (a : List (String × String)) : List (String × String) :=
  if attrLookup a ("fill") == some ("none") && attrFalsy a ("stroke") then
    setAttr (setAttr a ("stroke") ("currentColor")) ("stroke-width") ("1")
  else a

/-- The whole per-element repair (lines 78-86), applied to each selected
element (the selector matches `primRepairTags`). -/
def fixAttrs (t : String) (a : List (String × String)) : List (String × String) :=
  if primRepairTags.contains t then fixStroke (fixFill a) else a

mutual

def repairTree : XmlNode → XmlNode
  | .elem t a cs => .elem t (fixAttrs t a) (repairList cs)

def repairList : List XmlNode → List XmlNode
  | [] => []
  | c :: rest => repairTree c :: repairList rest

end

/-- `createIcon` lines 73-86: `element.cloneNode(true)` followed by the repair
pass.  `clonedElement.querySelectorAll(...)` selects strict descendants of the
clone only, so the candidate element itself is never repaired. -/
def repairClone : XmlNode → XmlNode
  | .elem t a cs => .elem t a (repairList cs)

/-- Lines 59-66: dimensions from the root `viewBox` (entries 2 and 3 of the
space-separated list, each falling back to 24 when missing, `NaN` or `0`),
else the 24×24 default. -/
def rootDims (rootSvg : XmlNode) : Int × Int :=
  match rootSvg.getAttribute ("viewBox") with
  | none => (24, 24)
  | some vb =>
    if vb = "" then (24, 24)
    else
      let parts := splitOnSpace vb
      (jsNumOr (parts.get? 2) 24, jsNumOr (parts.get? 3) 24)

/-- `createIcon` (lines 54-121): wrap the repaired clone in a fresh `<svg>`
carrying viewBox/width/height/xmlns, serialize, and reject serializations
shorter than 100 or longer than 50000 characters. -/
def createIcon (rootSvg element : XmlNode) (fileName : String) (index : Nat)
    (elementType : String) (now : Nat) : Option ExtractedIcon :=
  let wh := rootDims rootSvg
  let svgWrapper := XmlNode.elem ("svg")
    [("viewBox", "0 0 " ++ toString wh.1 ++ " " ++ toString wh.2),
     ("width", toString wh.1), ("height", toString wh.2), ("xmlns", ns)]
    [repairClone element]
  let svgString := svgWrapper.serialize
  if svgString.length < 100 || svgString.length > 50000 then none
  else some {
    id := replaceFirst fileName (".svg") ("") ++ "-" ++ elementType ++ "-" ++
      toString index ++ "-" ++ toString now,
    svgContent := svgString,
    name := replaceFirst fileName (".svg") ("") ++ "-" ++ elementType ++ "-" ++
      toString (index + 1),
    category := "", description := "", keywords := [], license := "", author := "",
    width := wh.1, height := wh.2,
    fileSize := svgString.utf8ByteSize }

/-- The group-content test of priority 2 (line 144): note it includes
`polyline`, unlike the repair selector. -/
def primSel7 : List CssSel :=
  [tagSel ("path"), tagSel ("circle"), tagSel ("rect"), tagSel ("polygon"),
   tagSel ("polyline"), tagSel ("ellipse"), tagSel ("line")]

/-- Priority 1 (lines 126-135): every `<symbol>` (capped at 50). -/
def symbolIcons (rootSvg : XmlNode) (fileName : String) (now : Nat) : List ExtractedIcon :=
  ((querySelectorAll rootSvg [tagSel ("symbol")]).take 50).enum.filterMap
    (fun p => createIcon rootSvg p.2 fileName p.1 ("symbol") now)

/-- Priority 2 (lines 137-150): every `<g>` with visual content (capped at 50;
the `forEach` index counts all groups, filtered or not). -/
def groupIcons (rootSvg : XmlNode) (fileName : String) (now : Nat) : List ExtractedIcon :=
  ((querySelectorAll rootSvg [tagSel ("g")]).take 50).enum.filterMap
    (fun p =>
      if (querySelector p.2 primSel7).isSome then
        createIcon rootSvg p.2 fileName p.1 ("group") now
      else none)

/-- Priority 3 (lines 152-161): every `<path>` (capped at 50). -/
def pathIcons (rootSvg : XmlNode) (fileName : String) (now : Nat) : List ExtractedIcon :=
  ((querySelectorAll rootSvg [tagSel ("path")]).take 50).enum.filterMap
    (fun p => createIcon rootSvg p.2 fileName p.1 ("path") now)

/-- Last resort (lines 163-196): the whole root `<svg>` serialized as one
icon, guarded by a 50000-character cap. -/
def wholeSvgFallback (rootSvg : XmlNode) (fileName : String) (now : Nat) : List ExtractedIcon :=
  let svgString := rootSvg.serialize
  if svgString.length < 50000 then
    [{ id := replaceFirst fileName (".svg") ("") ++ "-full-" ++ toString now,
       svgContent := svgString,
       name := replaceFirst fileName (".svg") (""),
       category := "", description := "", keywords := [], license := "", author := "",
       width := (rootDims rootSvg).1, height := (rootDims rootSvg).2,
       fileSize := svgString.utf8ByteSize }]
  else []

/-- `extractIconsFromSvg` (lines 24-200): size guard, parse-error and
missing-root rejection, the escalating strategy chain, the whole-document
fallback, and the final cap of 100. -/
def extractIconsFromSvg (svgContentLen : Nat) (doc : XmlNode) (fileName : String)
    (now : Nat) : List ExtractedIcon :=
  if svgContentLen > 5000000 then []
  else if (querySelector doc [tagSel ("parsererror")]).isSome then []
  else
    match querySelector doc [tagSel ("svg")] with
    | none => []
    | some rootSvg =>
      let i1 := symbolIcons rootSvg fileName now
      let i2 := if i1.isEmpty then groupIcons rootSvg fileName now else i1
      let i3 := if i2.isEmpty then pathIcons rootSvg fileName now else i2
      let i4 := if i3.isEmpty then wholeSvgFallback rootSvg fileName now else i3
      i4.take 100

/-- One uploaded file as `processFiles` sees it: its name, its byte size, the
character length of its text, and the tree `DOMParser` produced for it. -/
structure UploadFile where
  name : String
  size : Nat
  contentLen : Nat
  doc : XmlNode

/-- `processFiles` (lines 202-235): sequential per-file processing; files over
10 MB are skipped; each file's work is wrapped in a `try` whose `catch` logs
and continues with the next file (the modelled per-file step is total, so the
catch branch has no residual behaviour). -/
def processFiles (files : List UploadFile) (now : Nat) : List ExtractedIcon :=
  files.flatMap (fun f =>
    if f.size > 10000000 then []
    else extractIconsFromSvg f.contentLen f.doc f.name now)

end IconExtractor

namespace AdvancedIconExtractor

/-- A `getBBox()` result.  `getBBox` is a browser layout primitive, so it (and
the `el.getBBox ? el.getBBox() : default` guard around it) enters the model as
an oracle `XmlNode → Option BBox`: `none` models the call throwing (the
element is skipped by the `catch`), `some b` its produced box.  Coordinates
are modelled as integers (`Math.round` on them is then the identity). -/
structure BBox where
  x : Int
  y : Int
  width : Int
  height : Int
deriving Repr, DecidableEq

/-- `isValidIcon` (AdvancedIconExtractor.tsx lines 25-47): the element must
contain some drawing element, and when it contains a path, the *first* path
must carry a `d` of length at least 10 — otherwise the whole element is
rejected, even if other shapes are present. -/
def isValidIcon (element : XmlNode) : Bool :=
  let hasPath := querySelector element [tagSel ("path")]
  let hasCircle := querySelector element [tagSel ("circle")]
  let hasRect := querySelector element [tagSel ("rect")]
  let hasPolygon := querySelector element [tagSel ("polygon")]
  let hasEllipse := querySelector element [tagSel ("ellipse")]
  let hasLine := querySelector element [tagSel ("line")]
  if hasPath.isNone && hasCircle.isNone && hasRect.isNone && hasPolygon.isNone
      && hasEllipse.isNone && hasLine.isNone then
    false
  else
    match hasPath with
    | some p =>
      match p.getAttribute ("d") with
      | none => false
      | some d => if d = "" then false else decide (10 ≤ d.length)
    | none => true

/-- `createIndividualSVG` (lines 115-135): wrap serialized content in a fresh
`<svg>` copying viewBox/width/height from the source root (with 100-defaults)
and inlining the source `<style>` block if present.  (The text content of a
`<style>` element is not representable in the element-only tree, so the
carried style is the serialization of its child elements; no claim depends on
the carried CSS text itself.) -/
def createIndividualSVG (iconContent : String) (originalSvg : XmlNode) : String :=
  let viewBox := jsOr (originalSvg.getAttribute ("viewBox")) ("0 0 100 100")
  let width := jsOr (originalSvg.getAttribute ("width")) ("100")
  let height := jsOr (originalSvg.getAttribute ("height")) ("100")
  let styleContent :=
    match querySelector originalSvg [tagSel ("style")] with
    | some st => st.innerHTML
    | none => ""
  "<svg xmlns=\"http://www.w3.org/2000/svg\" viewBox=\"" ++ viewBox ++
    "\" width=\"" ++ width ++ "\" height=\"" ++ height ++ "\">\n        " ++
    (if styleContent = "" then "" else "<style>" ++ styleContent ++ "</style>") ++
    "\n        " ++ iconContent ++ "\n      </svg>"

/-- One surviving entry of the `positions` array of `detectGridPattern`. -/
structure GridPos where
  element : XmlNode
  x : Int
  y : Int
  width : Int
  height : Int
deriving DecidableEq

/-- Lines 58-77: keep the valid elements whose bounding box is computable and
strictly larger than 5×5. -/
def gridPositions (gb : XmlNode → Option BBox) (elements : List XmlNode) : List GridPos :=
  (elements.filter isValidIcon).filterMap (fun el =>
    match gb el with
    | none => none
    | some b =>
      if b.width > 5 && b.height > 5 then
        some { element := el, x := b.x, y := b.y, width := b.width, height := b.height }
      else none)

/-- Line 82: `Math.round(pos.y / 100) * 100` — the nearest multiple of 100
(ties rounding up, as `Math.round` does). -/
def rowKey (y : Int) : Int := ((y + 50).fdiv 100) * 100

/-- Distinct values in order of first occurrence. -/
def firstSeen : List Int → List Int
  | [] => []
  | k :: rest => k :: (firstSeen rest).filter (fun j => j ≠ k)

/-- The enumeration order of the `rows` object (lines 80-88): JavaScript
objects list integer-valued keys that are array indices (the nonnegative ones)
first, in ascending order, then the remaining keys in insertion order. -/
def jsKeyOrder (ks : List Int) : List Int :=
  let distinct := firstSeen ks
  (List.insertionSort (fun a b : Int => a ≤ b) (distinct.filter (fun k => 0 ≤ k))) ++
    distinct.filter (fun k => k < 0)

/-- `rows`: for each key, the positions quantizing to it, in insertion
(= original) order. -/
def gridRows (ps : List GridPos) : List (List GridPos) :=
  (jsKeyOrder (ps.map (fun p => rowKey p.y))).map
    (fun k => ps.filter (fun p => rowKey p.y == k))

/-- Line 89: `row.sort((a, b) => a.x - b.x)` — stable ascending sort on x. -/
def sortRow (row : List GridPos) : List GridPos :=
  List.insertionSort (fun a b => a.x ≤ b.x) row

/-- Lines 90-109: one emitted grid icon, provided its wrapper serialization
exceeds 100 characters. -/
def gridIconOf (now : Nat) (svgContainer : XmlNode) (rowIndex colIndex : Nat)
    (item : GridPos) : Option ExtractedIcon :=
  let svgWrapper := createIndividualSVG item.element.serialize svgContainer
  if svgWrapper.length > 100 then
    some {
      id := "grid-" ++ toString now ++ "-" ++ toString rowIndex ++ "-" ++ toString colIndex,
      svgContent := svgWrapper,
      name := "grid-icon-" ++ toString rowIndex ++ "-" ++ toString colIndex,
      category := "", description := "", keywords := [], license := "", author := "",
      width := item.width, height := item.height,
      fileSize := svgWrapper.utf8ByteSize }
  else none

/-- `detectGridPattern` (lines 49-113): filter, bucket into rows by quantized
y, sort each row by x, emit at most 10 per row and 20 in total. -/
def detectGridPattern (gb : XmlNode → Option BBox) (now : Nat) (elements : List XmlNode)
    (svgContainer : XmlNode) : List ExtractedIcon :=
  if (elements.filter isValidIcon).isEmpty then []
  else
    let rows := gridRows (gridPositions gb elements)
    (rows.enum.flatMap (fun r =>
      ((sortRow r.2).take 10).enum.filterMap (fun c =>
        gridIconOf now svgContainer r.1 c.1 c.2))).take 20

/-- Strategy 1 (lines 162-192): symbols, capped at 30, validity-filtered. -/
def advSymbolIcons (svgElement : XmlNode) (fileName : String) (now : Nat) : List ExtractedIcon :=
  ((querySelectorAll svgElement [tagSel ("symbol")]).take 30).enum.filterMap (fun p =>
    if isValidIcon p.2 then
      let svgWrapper := createIndividualSVG p.2.serialize svgElement
      if svgWrapper.length > 100 then
        some {
          id := fileName ++ "-symbol-" ++ toString p.1 ++ "-" ++ toString now,
          svgContent := svgWrapper,
          name := jsOr (p.2.getAttribute ("id")) (fileName ++ "-symbol-" ++ toString (p.1 + 1)),
          category := "", description := "", keywords := [], license := "", author := "",
          width := 24, height := 24, fileSize := svgWrapper.utf8ByteSize }
      else none
    else none)

/-- Strategy 2 (lines 194-224): `defs > g`, capped at 30. -/
def advDefsIcons (svgElement : XmlNode) (fileName : String) (now : Nat) : List ExtractedIcon :=
  ((querySelectorAll svgElement [⟨some ("defs"), "g", none⟩]).take 30).enum.filterMap (fun p =>
    if isValidIcon p.2 then
      let svgWrapper := createIndividualSVG p.2.serialize svgElement
      if svgWrapper.length > 100 then
        some {
          id := fileName ++ "-def-" ++ toString p.1 ++ "-" ++ toString now,
          svgContent := svgWrapper,
          name := jsOr (p.2.getAttribute ("id")) (fileName ++ "-def-" ++ toString (p.1 + 1)),
          category := "", description := "", keywords := [], license := "", author := "",
          width := 24, height := 24, fileSize := svgWrapper.utf8ByteSize }
      else none
    else none)

/-- Strategy 3 (lines 226-256): `svg > g[id], svg > g[class]`, capped at 30. -/
def advNamedIcons (svgElement : XmlNode) (fileName : String) (now : Nat) : List ExtractedIcon :=
  ((querySelectorAll svgElement
      [⟨some ("svg"), "g", some ("id")⟩, ⟨some ("svg"), "g", some ("class")⟩]).take 30).enum.filterMap
    (fun p =>
      if isValidIcon p.2 then
        let svgWrapper := createIndividualSVG p.2.serialize svgElement
        if svgWrapper.length > 100 then
          some {
            id := fileName ++ "-named-" ++ toString p.1 ++ "-" ++ toString now,
            svgContent := svgWrapper,
            name := jsOr (p.2.getAttribute ("id"))
              (jsOr (p.2.getAttribute ("class")) (fileName ++ "-named-" ++ toString (p.1 + 1))),
            category := "", description := "", keywords := [], license := "", author := "",
            width := 24, height := 24, fileSize := svgWrapper.utf8ByteSize }
        else none
      else none)

/-- Strategy 4 (lines 258-289): `<use>` elements with an `href`/`xlink:href`,
capped at 30. -/
def advUseIcons (svgElement : XmlNode) (fileName : String) (now : Nat) : List ExtractedIcon :=
  ((querySelectorAll svgElement [tagSel ("use")]).take 30).enum.filterMap (fun p =>
    let href := jsOr (p.2.getAttribute ("href")) (jsOr (p.2.getAttribute ("xlink:href")) (""))
    if href = "" then none
    else
      let svgWrapper := createIndividualSVG p.2.serialize svgElement
      if svgWrapper.length > 100 then
        some {
          id := fileName ++ "-use-" ++ toString p.1 ++ "-" ++ toString now,
          svgContent := svgWrapper,
          name := fileName ++ "-use-" ++ replaceFirst href ("#") ("") ++ "-" ++ toString (p.1 + 1),
          category := "", description := "", keywords := [], license := "", author := "",
          width := 24, height := 24, fileSize := svgWrapper.utf8ByteSize }
      else none)

/-- Strategies 1-5 in order (lines 162-299): the structural chain, each later
strategy running only when the icon list is still empty, plus the grid pass
when fewer than 3 icons were found. -/
def advStructuralIcons (gb : XmlNode → Option BBox) (svgElement : XmlNode)
    (fileName : String) (now : Nat) : List ExtractedIcon :=
  let i1 := advSymbolIcons svgElement fileName now
  let i2 := if i1.isEmpty then advDefsIcons svgElement fileName now else i1
  let i3 := if i2.isEmpty then advNamedIcons svgElement fileName now else i2
  let i4 := if i3.isEmpty then advUseIcons svgElement fileName now else i3
  if i4.length < 3 then
    i4 ++ detectGridPattern gb now
      ((querySelectorAll svgElement [tagSel ("g"), ⟨none, "path", some ("d")⟩]).take 50)
      svgElement
  else i4

/-- Last resort (lines 301-326): the whole document as one icon, only when the
serialization is between 200 and 100000 characters. -/
def advWholeFallback (svgElement : XmlNode) (fileName : String) (now : Nat) : List ExtractedIcon :=
  let svgString := svgElement.serialize
  if svgString.length < 100000 && svgString.length > 200 then
    [{ id := fileName ++ "-full-" ++ toString now,
       svgContent := svgString,
       name := replaceFirst fileName (".svg") (""),
       category := "", description := "", keywords := [], license := "", author := "",
       width := 100, height := 100,
       fileSize := svgString.utf8ByteSize }]
  else []

/-- `extractIconsAdvanced` (lines 137-330): guards, the strategy chain, the
whole-document fallback and the final cap of 25. -/
def extractIconsAdvanced (gb : XmlNode → Option BBox) (svgContentLen : Nat) (doc : XmlNode)
    (fileName : String) (now : Nat) : List ExtractedIcon :=
  if svgContentLen > 5000000 then []
  else if (querySelector doc [tagSel ("parsererror")]).isSome then []
  else
    match querySelector doc [tagSel ("svg")] with
    | none => []
    | some svgElement =>
      let i5 := advStructuralIcons gb svgElement fileName now
      let i6 := if i5.isEmpty then advWholeFallback svgElement fileName now else i5
      i6.take 25

end AdvancedIconExtractor

namespace SmartIconExtractor

/-- `createStandaloneIcon` (SmartIconExtractor.tsx lines 297-321, second
iteration): a fresh `<svg xmlns viewBox fill="currentColor">` wrapper; a `<g>`
candidate is flattened to clones of its children, any other candidate is
cloned whole. -/
def createStandaloneIcon (element : XmlNode) (originalViewBox : String) : String :=
  let cs := if element.tag == "g" then element.children else [element]
  (XmlNode.elem ("svg")
    [("xmlns", ns), ("viewBox", originalViewBox), ("fill", "currentColor")] cs).serialize

/-- `isValidIconElement` (lines 323-353): some drawing element must be
present; when paths are present, either some path has `d` with trimmed length
over 10, or some non-path drawing element exists. -/
def isValidIconElement (element : XmlNode) : Bool :=
  let hasPath := (querySelector element [tagSel ("path")]).isSome
  let hasCircle := (querySelector element [tagSel ("circle")]).isSome
  let hasRect := (querySelector element [tagSel ("rect")]).isSome
  let hasPolygon := (querySelector element [tagSel ("polygon")]).isSome
  let hasLine := (querySelector element [tagSel ("line")]).isSome
  let hasPolyline := (querySelector element [tagSel ("polyline")]).isSome
  let hasEllipse := (querySelector element [tagSel ("ellipse")]).isSome
  if !hasPath && !hasCircle && !hasRect && !hasPolygon && !hasLine && !hasPolyline
      && !hasEllipse then
    false
  else if hasPath then
    let hasValidPath := (querySelectorAll element [tagSel ("path")]).any (fun p =>
      match p.getAttribute ("d") with
      | some d => if d = "" then false else decide (10 < (jsTrim d).length)
      | none => false)
    if !hasValidPath && !hasCircle && !hasRect && !hasPolygon && !hasLine && !hasPolyline
        && !hasEllipse then
      false
    else true
  else true

def isWordChar (c : Char) : Bool := c.isAlpha || c.isDigit || c == '_'

def titleCaseAux : Bool → List Char → List Char
  | _, [] => []
  | prevWord, c :: rest =>
    (if !prevWord && isWordChar c then c.toUpper else c) :: titleCaseAux (isWordChar c) rest

/-- `id.replace(/[_-]/g, ' ').replace(/\b\w/g, l => l.toUpperCase())`
(lines 395, 425): underscores and hyphens become spaces, then every word
character at a word boundary is upper-cased. -/
def humanize (s : String) : String :=
  String.mk (titleCaseAux false (s.data.map (fun c => if c = '_' || c = '-' then ' ' else c)))

example : humanize ("home") = "Home" := by decide
example : humanize ("arrow_left-bold") = "Arrow Left Bold" := by decide

/-- Strategy 1 candidates (lines 381-385): valid symbols, with their
`forEach` index. -/
def strat1Cands (svgElement : XmlNode) : List (Nat × XmlNode) :=
  (querySelectorAll svgElement [tagSel ("symbol")]).enum.filter
    (fun p => isValidIconElement p.2)

def mkSymbolIcon (viewBox fileName : String) (now : Nat) (p : Nat × XmlNode) : ExtractedIcon :=
  let iconId := jsOr (p.2.getAttribute ("id")) ("symbol-" ++ toString p.1)
  let svgWrapper := createStandaloneIcon p.2 viewBox
  { id := fileName ++ "-symbol-" ++ iconId ++ "-" ++ toString now ++ "-" ++ toString p.1,
    svgContent := svgWrapper,
    name := humanize iconId,
    category := "Symbol",
    description := "Extracted from " ++ fileName,
    keywords := [iconId, "symbol"],
    license := "", author := "",
    width := 24, height := 24, fileSize := svgWrapper.utf8ByteSize }

/-- Strategy 2 candidates (lines 408-414): valid `g[id]` groups. -/
def strat2Cands (svgElement : XmlNode) : List (Nat × XmlNode) :=
  (querySelectorAll svgElement [⟨none, "g", some ("id")⟩]).enum.filter
    (fun p => isValidIconElement p.2)

def mkNamedGroupIcon (viewBox fileName : String) (now : Nat) (p : Nat × XmlNode) : ExtractedIcon :=
  let groupId := jsOr (p.2.getAttribute ("id")) ("group-" ++ toString p.1)
  let svgWrapper := createStandaloneIcon p.2 viewBox
  { id := fileName ++ "-group-" ++ groupId ++ "-" ++ toString now ++ "-" ++ toString p.1,
    svgContent := svgWrapper,
    name := humanize groupId,
    category := "Group",
    description := "Extracted from " ++ fileName,
    keywords := [groupId, "group"],
    license := "", author := "",
    width := 24, height := 24, fileSize := svgWrapper.utf8ByteSize }

/-- Strategy 3 candidates (lines 442-472): the first 50 groups, validity
filtered, at most 25 taken, indexed by `validGroupCount`. -/
def strat3Cands (svgElement : XmlNode) : List (Nat × XmlNode) :=
  ((((querySelectorAll svgElement [tagSel ("g")]).take 50).filter
      isValidIconElement).take 25).enum

def mkAutoGroupIcon (viewBox fileName : String) (now : Nat) (p : Nat × XmlNode) : ExtractedIcon :=
  let svgWrapper := createStandaloneIcon p.2 viewBox
  { id := fileName ++ "-auto-" ++ toString p.1 ++ "-" ++ toString now,
    svgContent := svgWrapper,
    name := "Icon " ++ toString (p.1 + 1),
    category := "Auto-extracted",
    description := "Extracted from " ++ fileName,
    keywords := ["auto", "extracted"],
    license := "", author := "",
    width := 24, height := 24, fileSize := svgWrapper.utf8ByteSize }

/-- Strategy 4 candidates (lines 475-503): the first 20 paths whose `d` is
longer than 20 characters. -/
def strat4Cands (svgElement : XmlNode) : List (Nat × XmlNode) :=
  ((querySelectorAll svgElement [tagSel ("path")]).take 20).enum.filter (fun p =>
    match p.2.getAttribute ("d") with
    | some d => if d = "" then false else decide (20 < d.length)
    | none => false)

def mkPathIcon (viewBox fileName : String) (now : Nat) (p : Nat × XmlNode) : ExtractedIcon :=
  let svgWrapper := createStandaloneIcon p.2 viewBox
  { id := fileName ++ "-path-" ++ toString p.1 ++ "-" ++ toString now,
    svgContent := svgWrapper,
    name := "Path Icon " ++ toString (p.1 + 1),
    category := "Path",
    description := "Extracted from " ++ fileName,
    keywords := ["path", "extracted"],
    license := "", author := "",
    width := 24, height := 24, fileSize := svgWrapper.utf8ByteSize }

/-- The escalating candidate chain (strategy 2 runs when fewer than 5 icons
so far, strategy 3 when fewer than 3, strategy 4 when none). -/
def candsUpTo2 (svgElement : XmlNode) : List (Nat × XmlNode) :=
  if (strat1Cands svgElement).length < 5 then
    strat1Cands svgElement ++ strat2Cands svgElement
  else strat1Cands svgElement

def candsUpTo3 (svgElement : XmlNode) : List (Nat × XmlNode) :=
  if (candsUpTo2 svgElement).length < 3 then
    candsUpTo2 svgElement ++ strat3Cands svgElement
  else candsUpTo2 svgElement

def candsUpTo4 (svgElement : XmlNode) : List (Nat × XmlNode) :=
  if (candsUpTo3 svgElement).length == 0 then
    candsUpTo3 svgElement ++ strat4Cands svgElement
  else candsUpTo3 svgElement

/-- The source elements discovery wraps into icons for one file, in emission
order, across every strategy that ran. -/
def discoveredElements (svgElement : XmlNode) : List XmlNode :=
  (candsUpTo4 svgElement).map (fun p => p.2)

/-- Lines 506-510: two icons are merged by the deduplication pass when their
serialized contents differ in length by less than 50 characters. -/
def near (a b : ExtractedIcon) : Bool :=
  ((a.svgContent.length : Int) - (b.svgContent.length : Int)).natAbs < 50

/-- The deduplication filter (lines 506-510): keep an icon exactly when the
first icon in the whole list whose content length is within 50 of its own is
the icon itself. -/
def dedupIcons (icons : List ExtractedIcon) : List ExtractedIcon :=
  (icons.enum.filter (fun p =>
    icons.findIdx? (fun other => near other p.2) == some p.1)).map (fun p => p.2)

/-- `extractIconsFromSVG` (lines 355-519, second iteration): parse checks, the
escalating strategy chain, length-based deduplication, and the cap of 30. -/
def extractIconsFromSVG (doc : XmlNode) (fileName : String) (now : Nat) : List ExtractedIcon :=
  if (querySelector doc [tagSel ("parsererror")]).isSome then []
  else
    match querySelector doc [tagSel ("svg")] with
    | none => []
    | some svgElement =>
      let viewBox := jsOr (svgElement.getAttribute ("viewBox")) ("0 0 24 24")
      let i1 := (strat1Cands svgElement).map (mkSymbolIcon viewBox fileName now)
      let i2 := if i1.length < 5 then
          i1 ++ (strat2Cands svgElement).map (mkNamedGroupIcon viewBox fileName now)
        else i1
      let i3 := if i2.length < 3 then
          i2 ++ (strat3Cands svgElement).map (mkAutoGroupIcon viewBox fileName now)
        else i2
      let i4 := if i3.length == 0 then
          i3 ++ (strat4Cands svgElement).map (mkPathIcon viewBox fileName now)
        else i3
      let uniqueIcons := dedupIcons i4
      uniqueIcons.take (min uniqueIcons.length 30)

end SmartIconExtractor

namespace SmartIconExtractorV1

/-- `createIconFromPath` (SmartIconExtractor.tsx lines 26-59, first
iteration): a fixed 100×100 wrapper template around the path data; the
produced dimensions are always 100×100. -/
def createIconFromPath (pathElement : XmlNode) (index : Nat) (fileName : String)
    (svgViewBox : String) (now : Nat) : Option ExtractedIcon :=
  match pathElement.getAttribute ("d") with
  | none => none
  | some pathData =>
    if pathData.length < 10 then none
    else
      let iconSVG := "<svg xmlns=\"http://www.w3.org/2000/svg\" viewBox=\"" ++ svgViewBox ++
        "\" width=\"100\" height=\"100\" fill=\"none\" stroke=\"#000000\" stroke-width=\"2\" stroke-linecap=\"round\" stroke-linejoin=\"round\">\n  <path d=\"" ++
        pathData ++ "\" fill=\"#000000\"/>\n</svg>"
      some {
        id := fileName ++ "-path-" ++ toString index ++ "-" ++ toString now,
        svgContent := iconSVG,
        name := replaceFirst fileName (".svg") ("") ++ " Icon " ++ toString (index + 1),
        category := "Extracted Path",
        description := "Path extracted from " ++ fileName,
        keywords := ["extracted", "path", jsToLower (replaceFirst fileName (".svg") (""))],
        license := "", author := "",
        width := 100, height := 100, fileSize := iconSVG.utf8ByteSize }

end SmartIconExtractorV1

namespace DomStore

/-!
For claim C9 the relevant property is about object identity and in-place
mutation, so this section re-models the fragment-synthesis steps of
`IconExtractor.createIcon` (lines 73-88) over an explicit node store: nodes
are heap entries addressed by numeric ids, `cloneNode(true)` allocates fresh
ids, and `setAttribute` mutates the store in place.  The repair pass is then
literally the source's loop of `setAttribute` calls over the primitive
descendants of the clone.
-/

structure NodeData where
  tag : String
  attrs : List (String × String)
  children : List Nat
deriving Repr, DecidableEq

structure Dom where
  store : List (Nat × NodeData)
  nextId : Nat
deriving Repr, DecidableEq

def Dom.lookup (d : Dom) (i : Nat) : Option NodeData :=
  ((d.store.find? (fun p => p.1 == i)).map (fun p => p.2))

def Dom.setAttribute (d : Dom) (i : Nat) (k v : String) : Dom :=
  { d with store := d.store.map (fun p =>
      if p.1 == i then (p.1, { p.2 with attrs := setAttr p.2.attrs k v }) else p) }

def Dom.alloc (d : Dom) (nd : NodeData) : Dom × Nat :=
  ({ store := (d.nextId, nd) :: d.store, nextId := d.nextId + 1 }, d.nextId)

/-- `element.cloneNode(true)`: deep copy into fresh ids, children first, in
order.  The store is a graph, so the recursion is bounded by fuel; with enough
fuel on an acyclic store this is exactly a deep clone. -/
def cloneNode : Nat → Dom → Nat → Dom × Option Nat
  | 0, d, _ => (d, none)
  | fuel + 1, d, i =>
    match d.lookup i with
    | none => (d, none)
    | some nd =>
      let r := nd.children.foldl (fun acc c =>
        match cloneNode fuel acc.1 c with
        | (d1, some cid) => (d1, acc.2 ++ [cid])
        | (d1, none) => (d1, acc.2)) (d, [])
      let a := r.1.alloc { nd with children := r.2 }
      (a.1, some a.2)

/-- The ids `clonedElement.querySelectorAll(...)` iterates: all strict
descendants of a node, in document order (fuel-bounded as above). -/
def descIds : Nat → Dom → Nat → List Nat
  | 0, _, _ => []
  | fuel + 1, d, i =>
    match d.lookup i with
    | none => []
    | some nd => nd.children.flatMap (fun c => c :: descIds fuel d c)

/-- Whether a stored node's tag is one the repair selector matches. -/
def isPrimId (d : Dom) (i : Nat) : Bool :=
  match d.lookup i with
  | some nd => IconExtractor.primRepairTags.contains nd.tag
  | none => false

/-- First repair statement on one selected element id (lines 79-81). -/
def repairStepFill (d : Dom) (i : Nat) : Dom :=
  match d.lookup i with
  | none => d
  | some nd =>
    if attrFalsy nd.attrs ("fill") && attrFalsy nd.attrs ("stroke") then
      d.setAttribute i ("fill") ("currentColor")
    else d

/-- Second repair statement (lines 82-85), reading the attributes as left by
the first. -/
def repairStepStroke (d : Dom) (i : Nat) : Dom :=
  match d.lookup i with
  | none => d
  | some nd =>
    if attrLookup nd.attrs ("fill") == some ("none") && attrFalsy nd.attrs ("stroke") then
      (d.setAttribute i ("stroke") ("currentColor")).setAttribute i ("stroke-width") ("1")
    else d

/-- The body of the repair loop (lines 78-86), as in-place `setAttribute`
calls on one selected element. -/
def repairStep (d : Dom) (i : Nat) : Dom := repairStepStroke (repairStepFill d i) i

/-- Lines 73-88 of `createIcon`: clone the candidate subtree, then run the
repair loop over the primitive descendants of the clone.  Returns the mutated
store and the id of the clone root. -/
def createIconClone (d : Dom) (fuel : Nat) (cand : Nat) : Dom × Option Nat :=
  match cloneNode fuel d cand with
  | (d1, none) => (d1, none)
  | (d1, some cid) =>
    let prims := (descIds fuel d1 cid).filter (isPrimId d1)
    (prims.foldl repairStep d1, some cid)

end DomStore

namespace IconStorage

/-- How `dimensions` can come back from the `icons` table: a JSON object with
numeric `width`/`height`, some other JSON value, or SQL `NULL`. -/
inductive StoredDims where
  | dims (width height : Int)
  | malformed
  | missing
deriving Repr, DecidableEq

/-- One row of the `icons` table as `saveIcon`/`loadIcons` see it
(useIconStorage.ts lines 7-20); `id`/`created_at`/`updated_at` are generated
by the database. -/
structure IconRow where
  id : String
  name : String
  svg_content : String
  category : Option String
  description : Option String
  keywords : Option (List String)
  license : Option String
  author : Option String
  file_size : Option Nat
  dimensions : StoredDims
  created_at : String
deriving Repr, DecidableEq

/-- `s || null`. -/
def strOrNull (s : String) : Option String := if s = "" then none else some s

/-- The row `saveIcon` inserts (lines 33-48): empty metadata strings and the
empty keyword list are written as `NULL`. -/
def saveIcon (icon : ExtractedIcon) (rowId createdAt : String) : IconRow :=
  { id := rowId,
    name := icon.name,
    svg_content := icon.svgContent,
    category := strOrNull icon.category,
    description := strOrNull icon.description,
    keywords := if icon.keywords.length > 0 then some icon.keywords else none,
    license := strOrNull icon.license,
    author := strOrNull icon.author,
    file_size := some icon.fileSize,
    dimensions := .dims icon.width icon.height,
    created_at := createdAt }

/-- The per-record mapping of `loadIcons` (lines 96-119): `NULL` metadata
comes back as empty strings / the empty list, missing or malformed dimensions
as the 24×24 default, and a missing byte size as 0. -/
def loadRecord (record : IconRow) : ExtractedIcon :=
  let wh : Int × Int :=
    match record.dimensions with
    | .dims w h => (w, h)
    | _ => (24, 24)
  { id := record.id,
    svgContent := record.svg_content,
    name := record.name,
    category := record.category.getD (""),
    description := record.description.getD (""),
    keywords := record.keywords.getD [],
    license := record.license.getD (""),
    author := record.author.getD (""),
    width := wh.1, height := wh.2,
    fileSize := record.file_size.getD 0 }

end IconStorage

/-! ## Shared predicates for the claim theorems -/

set_option maxRecDepth 100000

/-- The P2 visibility test on an attribute list: a truthy `fill` other than
`"none"`, or a truthy `stroke`. -/
def visAttrs (a : List (String × String)) : Bool :=
  (match attrLookup a ("fill") with
   | some f => !(f == "") && !(f == "none")
   | none => false) ||
  (match attrLookup a ("stroke") with
   | some s => !(s == "")
   | none => false)

/-- A drawing primitive is visibly rendered: it resolves to a fill that is not
`none`/unset, or to a stroke. -/
def visiblePrim (n : XmlNode) : Bool := visAttrs n.attrs

/-- All drawing primitives of a fragment tree, the root included. -/
def fragmentPrims (n : XmlNode) : List XmlNode :=
  (n :: n.descendants).filter (fun m => IconExtractor.primRepairTags.contains m.tag)

/-! ## C5: malformed or root-less input is rejected with zero fragments -/

/-- **C5.** Extraction applied to a parsed tree that carries a `parsererror`
marker, or that has no `svg` element, returns zero fragments.  By the shape of
`extractIconsFromSvg`, the strategy chain sits inside the `some rootSvg`
branch of the root lookup, after the `parsererror` test, so discovery is never
reached on such trees. -/
theorem extractIconsFromSvg_rejects_invalid (svgContentLen : Nat) (doc : XmlNode)
    (fileName : String) (now : Nat)
    (h : (querySelector doc [tagSel ("parsererror")]).isSome = true ∨
      querySelector doc [tagSel ("svg")] = none) :
    IconExtractor.extractIconsFromSvg svgContentLen doc fileName now = [] := by
  unfold IconExtractor.extractIconsFromSvg
  rcases h with h | h <;> · split <;> simp [h]

def malformedDoc : XmlNode := .elem ("#document") [] [.elem ("parsererror") [] []]

theorem extractIconsFromSvg_rejects_invalid_witness :
    ((querySelector malformedDoc [tagSel ("parsererror")]).isSome = true ∨
      querySelector malformedDoc [tagSel ("svg")] = none) ∧
    IconExtractor.extractIconsFromSvg 20 malformedDoc ("bad.svg") 0 = [] :=
  ⟨Or.inl (by decide),
   extractIconsFromSvg_rejects_invalid 20 malformedDoc ("bad.svg") 0 (Or.inl (by decide))⟩

/-! ## C4: batch resilience -/

/-- **C4.** A batch containing a malformed file returns exactly the fragments
of the other files concatenated in order: the malformed file contributes zero
fragments.  The per-file step is a total function (each file's work is inside
a `try` whose `catch` merely continues), so no exception escapes the batch. -/
theorem processFiles_batch_resilience (a b : List IconExtractor.UploadFile)
    (bad : IconExtractor.UploadFile) (now : Nat)
    (hmal : (querySelector bad.doc [tagSel ("parsererror")]).isSome = true) :
    IconExtractor.processFiles (a ++ bad :: b) now =
      IconExtractor.processFiles a now ++ IconExtractor.processFiles b now ∧
    IconExtractor.extractIconsFromSvg bad.contentLen bad.doc bad.name now = [] := by
  have hext : IconExtractor.extractIconsFromSvg bad.contentLen bad.doc bad.name now = [] :=
    extractIconsFromSvg_rejects_invalid _ _ _ _ (Or.inl hmal)
  refine ⟨?_, hext⟩
  unfold IconExtractor.processFiles
  rw [List.flatMap_append, List.flatMap_cons]
  have hfile : (if bad.size > 10000000 then ([] : List ExtractedIcon)
      else IconExtractor.extractIconsFromSvg bad.contentLen bad.doc bad.name now) = [] := by
    split
    · rfl
    · exact hext
  rw [hfile]
  simp

def goodFile : IconExtractor.UploadFile :=
  { name := "ok.svg", size := 200, contentLen := 200,
    doc := .elem ("#document") []
      [.elem ("svg") [("viewBox", "0 0 24 24")]
        [.elem ("path") [("d", "M2 2 L22 2 L22 22 L2 22 Z"), ("fill", "red")] []]] }

def badFile : IconExtractor.UploadFile :=
  { name := "bad.svg", size := 20, contentLen := 20, doc := malformedDoc }

theorem processFiles_batch_resilience_witness :
    IconExtractor.processFiles [goodFile, badFile, goodFile] 0 =
      IconExtractor.processFiles [goodFile] 0 ++ IconExtractor.processFiles [goodFile] 0 ∧
    IconExtractor.extractIconsFromSvg badFile.contentLen badFile.doc badFile.name 0 = [] ∧
    (IconExtractor.processFiles [goodFile, badFile, goodFile] 0).length = 2 := by
  refine ⟨(processFiles_batch_resilience [goodFile] [goodFile] badFile 0 (by decide)).1,
    (processFiles_batch_resilience [goodFile] [goodFile] badFile 0 (by decide)).2, ?_⟩
  decide

/-! ## C8: dimension defaults -/

def pathExC8 : XmlNode := .elem ("path") [("d", "M2 2 L22 2 L22 22 Z")] []

/-- **C8, counterexample.**  `createIconFromPath` (SmartIconExtractor, first
iteration) is called with the computed viewBox, which for a source document
with no `viewBox` attribute is the `'0 0 100 100'` default, and no bounding
boxagonal is ever computed for the candidate; yet the produced fragment's
dimensions are 100×100, not the claimed 24×24. -/
theorem createIconFromPath_dims_not_24 :
    jsOr ((XmlNode.elem ("svg") [] []).getAttribute ("viewBox")) ("0 0 100 100") =
      "0 0 100 100" ∧
    ((SmartIconExtractorV1.createIconFromPath pathExC8 0 ("f.svg") ("0 0 100 100") 0).map
      (fun i => (i.width, i.height))) = some (100, 100) ∧
    ((SmartIconExtractorV1.createIconFromPath pathExC8 0 ("f.svg") ("0 0 100 100") 0).map
      (fun i => (i.width, i.height))) ≠ some (24, 24) := by
  refine ⟨by decide, by decide, by decide⟩

/-- **C8, amended.**  In `IconExtractor.createIcon` the claim holds: when the
source document has no `viewBox` attribute (and no bounding box is ever
computed in that extractor), every produced fragment has dimensions 24×24.
`SmartIconExtractorV1.createIconFromPath` instead hard-codes 100×100. -/
theorem createIcon_default_dims (rootSvg element : XmlNode) (fileName : String)
    (index : Nat) (elementType : String) (now : Nat) (icon : ExtractedIcon)
    (hvb : rootSvg.getAttribute ("viewBox") = none)
    (h : IconExtractor.createIcon rootSvg element fileName index elementType now = some icon) :
    icon.width = 24 ∧ icon.height = 24 := by
  unfold IconExtractor.createIcon at h
  rw [show IconExtractor.rootDims rootSvg = (24, 24) by
    unfold IconExtractor.rootDims; rw [hvb]] at h
  dsimp only at h
  split at h
  · exact absurd h (by simp)
  · cases h; exact ⟨rfl, rfl⟩

def rootNoViewBox : XmlNode :=
  .elem ("svg") []
    [.elem ("path") [("d", "M2 2 L22 2 L22 22 L2 22 Z"), ("fill", "red")] []]

def exPathRed : XmlNode :=
  .elem ("path") [("d", "M2 2 L22 2 L22 22 L2 22 Z"), ("fill", "red")] []

theorem createIcon_default_dims_witness :
    rootNoViewBox.getAttribute ("viewBox") = none ∧
    ((IconExtractor.createIcon rootNoViewBox exPathRed ("f.svg") 0 ("path") 0).map
      (fun i => (i.width, i.height))) = some (24, 24) := by
  refine ⟨by decide, ?_⟩
  cases h : IconExtractor.createIcon rootNoViewBox exPathRed ("f.svg") 0 ("path") 0 with
  | none => exact absurd h (by decide)
  | some icon =>
    obtain ⟨hw, hh⟩ :=
      createIcon_default_dims rootNoViewBox exPathRed ("f.svg") 0 ("path") 0 icon
        (by decide) h
    simp [hw, hh]

/-! ## C10: storage round trip -/

/-- An icon with all free-form metadata blank, as freshly extracted icons
are. -/
def blankMeta (icon : ExtractedIcon) : ExtractedIcon :=
  { icon with category := "", description := "", license := "", author := "", keywords := [] }

def rowNullCategory (row : IconStorage.IconRow) : IconStorage.IconRow :=
  { row with category := none }

def rowNullKeywords (row : IconStorage.IconRow) : IconStorage.IconRow :=
  { row with keywords := none }

def rowMissingDims (row : IconStorage.IconRow) : IconStorage.IconRow :=
  { row with dimensions := .missing }

def rowMalformedDims (row : IconStorage.IconRow) : IconStorage.IconRow :=
  { row with dimensions := .malformed }

/-- **C10.**  `saveIcon` writes empty category/description/license/author and
an empty keyword list as `NULL`; `loadIcons` maps `NULL` metadata back to
empty strings / the empty list and missing or malformed dimensions to 24x24;
and save followed by load preserves name, svg content, all metadata,
dimensions and byte size, for every icon. -/
theorem saveIcon_loadIcons_roundtrip (icon : ExtractedIcon) (rowId createdAt : String)
    (row : IconStorage.IconRow) :
    ((IconStorage.saveIcon (blankMeta icon) rowId createdAt).category = none ∧
     (IconStorage.saveIcon (blankMeta icon) rowId createdAt).description = none ∧
     (IconStorage.saveIcon (blankMeta icon) rowId createdAt).license = none ∧
     (IconStorage.saveIcon (blankMeta icon) rowId createdAt).author = none ∧
     (IconStorage.saveIcon (blankMeta icon) rowId createdAt).keywords = none) ∧
    ((IconStorage.loadRecord (rowNullCategory row)).category = "" ∧
     (IconStorage.loadRecord (rowNullKeywords row)).keywords = [] ∧
     (IconStorage.loadRecord (rowMissingDims row)).width = 24 ∧
     (IconStorage.loadRecord (rowMissingDims row)).height = 24 ∧
     (IconStorage.loadRecord (rowMalformedDims row)).width = 24 ∧
     (IconStorage.loadRecord (rowMalformedDims row)).height = 24) ∧
    ((IconStorage.loadRecord (IconStorage.saveIcon icon rowId createdAt)).name = icon.name ∧
     (IconStorage.loadRecord (IconStorage.saveIcon icon rowId createdAt)).svgContent =
       icon.svgContent ∧
     (IconStorage.loadRecord (IconStorage.saveIcon icon rowId createdAt)).category =
       icon.category ∧
     (IconStorage.loadRecord (IconStorage.saveIcon icon rowId createdAt)).description =
       icon.description ∧
     (IconStorage.loadRecord (IconStorage.saveIcon icon rowId createdAt)).keywords =
       icon.keywords ∧
     (IconStorage.loadRecord (IconStorage.saveIcon icon rowId createdAt)).license =
       icon.license ∧
     (IconStorage.loadRecord (IconStorage.saveIcon icon rowId createdAt)).author =
       icon.author ∧
     (IconStorage.loadRecord (IconStorage.saveIcon icon rowId createdAt)).width =
       icon.width ∧
     (IconStorage.loadRecord (IconStorage.saveIcon icon rowId createdAt)).height =
       icon.height ∧
     (IconStorage.loadRecord (IconStorage.saveIcon icon rowId createdAt)).fileSize =
       icon.fileSize) := by
  unfold IconStorage.saveIcon IconStorage.loadRecord IconStorage.strOrNull blankMeta
    rowNullCategory rowNullKeywords rowMissingDims rowMalformedDims
  refine ⟨⟨by simp, by simp, by simp, by simp, by simp⟩,
    ⟨by simp, by simp, by simp, by simp, by simp, by simp⟩, ?_⟩
  refine ⟨by simp, by simp, ?_, ?_, ?_, ?_, ?_, by simp, by simp, by simp⟩
  · by_cases h : icon.category = "" <;> simp [h]
  · by_cases h : icon.description = "" <;> simp [h]
  · cases h : icon.keywords <;> simp [h]
  · by_cases h : icon.license = "" <;> simp [h]
  · by_cases h : icon.author = "" <;> simp [h]

/-! ## C1: the whole-document fallback and its size guard -/

def circleGb : XmlNode → Option AdvancedIconExtractor.BBox :=
  fun n => if n.tag == "circle" then some ⟨0, 0, 10, 10⟩ else none

def circleRoot : XmlNode :=
  .elem ("svg") [] [.elem ("circle") [("cx", "5"), ("cy", "5"), ("r", "5")] []]

def circleDoc : XmlNode := .elem ("#document") [] [circleRoot]

/-- **C1, counterexample.**  A structurally valid SVG (no parse error, a root
`svg`) holding one `circle` of radius 5 — a drawing primitive with non-trivial
geometry (its 10×10 bounding box is supplied by the oracle) — yields *zero*
fragments from `extractIconsAdvanced`: no structural strategy matches a bare
circle, the grid pass only scans `g, path[d]`, and the whole-document fallback
skips the document because its serialization is not longer than 200
characters. -/
theorem advanced_small_doc_zero_fragments :
    querySelector circleDoc [tagSel ("parsererror")] = none ∧
    querySelector circleDoc [tagSel ("svg")] = some circleRoot ∧
    (querySelectorAll circleRoot [tagSel ("circle")]).length = 1 ∧
    ((querySelectorAll circleRoot [tagSel ("circle")]).head?.bind
      (fun c => c.getAttribute ("r"))) = some ("5") ∧
    ((querySelectorAll circleRoot [tagSel ("circle")]).head?.bind circleGb) =
      some ⟨0, 0, 10, 10⟩ ∧
    AdvancedIconExtractor.extractIconsAdvanced circleGb 60 circleDoc ("icons.svg") 0 = [] := by
  decide

/-- **C1, amended.**  When every structural strategy (and the grid pass)
yields zero fragments *and the serialized document passes the fallback's size
guard* (longer than 200 and shorter than 100000 characters), the
whole-document fallback produces exactly one fragment, consisting of the
serialized source document.  Outside the guard the pipeline can return zero
fragments, as the counterexample shows. -/
theorem advanced_fallback_size_guarded (gb : XmlNode → Option AdvancedIconExtractor.BBox)
    (svgContentLen : Nat) (doc svgElement : XmlNode) (fileName : String) (now : Nat)
    (hsize : svgContentLen ≤ 5000000)
    (hpe : querySelector doc [tagSel ("parsererror")] = none)
    (hroot : querySelector doc [tagSel ("svg")] = some svgElement)
    (hempty : AdvancedIconExtractor.advStructuralIcons gb svgElement fileName now = [])
    (hlo : 200 < svgElement.serialize.length)
    (hhi : svgElement.serialize.length < 100000) :
    (AdvancedIconExtractor.extractIconsAdvanced gb svgContentLen doc fileName now).map
      (fun i => i.svgContent) = [svgElement.serialize] ∧
    (AdvancedIconExtractor.extractIconsAdvanced gb svgContentLen doc fileName now).length
      = 1 := by
  have hne : ¬ svgContentLen > 5000000 := by omega
  unfold AdvancedIconExtractor.extractIconsAdvanced
  rw [if_neg hne, hpe]
  simp only [Option.isSome_none, Bool.false_eq_true, if_false, hroot]
  rw [hempty]
  simp only [List.isEmpty_nil, if_true]
  unfold AdvancedIconExtractor.advWholeFallback
  rw [if_pos (by simp [hlo, hhi])]
  simp

def bigCircleRoot : XmlNode :=
  .elem ("svg") []
    [.elem ("circle")
      [("cx", "5"), ("cy", "5"), ("r", "5"),
       ("data-note", "xxxxxxxxxxxxxxxxxxxxxxxxxxxxxxxxxxxxxxxxxxxxxxxxxxxxxxxxxxxxxxxxxxxxxxxxxxxxxxxxxxxxxxxxxxxxxxxxxxxxxxxxxxxxxxxxxxxxxxxxxxxxxxxxxxxxxxxxxxxxxxxxxxxxxxxxxxxxxxxxxxxxxxxxxxxxxxxxxxxxxxxxxxxxxxxxxxxxxxxxxxxxxxxxxxxxxxxxx")] []]

def bigCircleDoc : XmlNode := .elem ("#document") [] [bigCircleRoot]

theorem advanced_fallback_size_guarded_witness :
    (AdvancedIconExtractor.extractIconsAdvanced (fun _ => none) 300 bigCircleDoc
      ("w.svg") 0).length = 1 :=
  (advanced_fallback_size_guarded (fun _ => none) 300 bigCircleDoc bigCircleRoot
    ("w.svg") 0 (by decide) (by decide) (by decide) (by decide) (by decide) (by decide)).2

/-! ## C2: the visibility repair and what it misses -/

def pathNoneDoc : XmlNode :=
  .elem ("#document") []
    [.elem ("svg") [("viewBox", "0 0 24 24")]
      [.elem ("path") [("d", "M2 2 L22 2 L22 22 L2 22 Z"), ("fill", "none")] []]]

def invisibleWrapper : XmlNode :=
  .elem ("svg")
    [("viewBox", "0 0 24 24"), ("width", "24"), ("height", "24"), ("xmlns", ns)]
    [.elem ("path") [("d", "M2 2 L22 2 L22 22 L2 22 Z"), ("fill", "none")] []]

/-- **C2, counterexample.**  A document whose only drawing primitive is a bare
`path` with `fill="none"` and no stroke is extracted by the direct-path
strategy of `IconExtractor`; the repair pass runs `querySelectorAll` on the
clone and therefore touches only strict descendants, so the path itself is
never repaired: the single produced fragment still contains a primitive with
`fill="none"` and no stroke. -/
theorem extract_emits_invisible_primitive :
    (IconExtractor.extractIconsFromSvg 200 pathNoneDoc ("sheet.svg") 7).map
      (fun i => i.svgContent) = [invisibleWrapper.serialize] ∧
    ((querySelectorAll pathNoneDoc [tagSel ("path")]).all
      (fun p => p.getAttribute ("fill") == some ("none")
        && (p.getAttribute ("stroke")).isNone)) = true ∧
    (fragmentPrims invisibleWrapper).any (fun p => !visiblePrim p) = true := by
  refine ⟨by decide, by decide, by decide⟩

theorem setAttr_lookup_self (a : List (String × String)) (k v : String) :
    attrLookup (setAttr a k v) k = some v := by
  unfold setAttr attrLookup
  split
  next hp =>
    rw [List.find?_map]
    have hcomp : ((fun p : String × String => p.1 == k) ∘
        (fun p : String × String => if p.1 == k then (p.1, v) else p)) =
        (fun p : String × String => p.1 == k) := by
      funext p; by_cases h : p.1 = k <;> simp [h]
    rw [hcomp]
    obtain ⟨q, hq⟩ := Option.isSome_iff_exists.mp hp
    rw [hq]
    have hqk := List.find?_some hq
    simp only [beq_iff_eq] at hqk
    simp [hqk]
  next hp =>
    rw [List.find?_append]
    have hnone : a.find? (fun p => p.1 == k) = none := by
      cases hfind : a.find? (fun p => p.1 == k)
      · rfl
      · rw [hfind] at hp; simp at hp
    rw [hnone]
    simp [List.find?]

theorem setAttr_lookup_other (a : List (String × String)) (k v k2 : String) (h : k2 ≠ k) :
    attrLookup (setAttr a k v) k2 = attrLookup a k2 := by
  unfold setAttr attrLookup
  split
  next =>
    rw [List.find?_map]
    have hcomp : ((fun p : String × String => p.1 == k2) ∘
        (fun p : String × String => if p.1 == k then (p.1, v) else p)) =
        (fun p : String × String => p.1 == k2) := by
      funext p
      by_cases hh : p.1 = k
      · simp [hh, Ne.symm h]
      · simp [hh]
    rw [hcomp]
    cases hfind : a.find? (fun p => p.1 == k2)
    · simp
    next q =>
      have hq := List.find?_some hfind
      simp only [beq_iff_eq] at hq
      have hne : ¬ q.1 = k := by rw [hq]; exact h
      simp [hne]
  next =>
    rw [List.find?_append]
    cases hfind : a.find? (fun p => p.1 == k2)
    · have hkk : ((k, v).1 == k2) = false := by simp [Ne.symm h]
      simp [List.find?, hkk]
    next q => simp

/-- After the two repair statements, an element with a repaired tag always
resolves to a visible fill or stroke. -/
theorem fixAttrs_visible (t : String) (a : List (String × String))
    (ht : IconExtractor.primRepairTags.contains t = true) :
    visAttrs (IconExtractor.fixAttrs t a) = true := by
  unfold IconExtractor.fixAttrs
  rw [if_pos ht]
  unfold IconExtractor.fixFill
  by_cases h1 : (attrFalsy a ("fill") && attrFalsy a ("stroke")) = true
  · rw [if_pos h1]
    have hfill : attrLookup (setAttr a ("fill") ("currentColor")) ("fill") =
        some ("currentColor") := setAttr_lookup_self a _ _
    unfold IconExtractor.fixStroke
    rw [if_neg (by simp [hfill])]
    unfold visAttrs
    rw [hfill]
    simp
  · rw [if_neg h1]
    unfold IconExtractor.fixStroke
    by_cases h2 : (attrLookup a ("fill") == some ("none") && attrFalsy a ("stroke")) = true
    · rw [if_pos h2]
      have hsw : attrLookup
          (setAttr (setAttr a ("stroke") ("currentColor")) ("stroke-width") ("1"))
          ("stroke") = some ("currentColor") := by
        rw [setAttr_lookup_other _ _ _ _ (by decide)]
        exact setAttr_lookup_self a _ _
      unfold visAttrs
      rw [hsw]
      simp
    · rw [if_neg h2]
      unfold visAttrs
      unfold attrFalsy at h1 h2
      cases hf : attrLookup a ("fill") <;> cases hst : attrLookup a ("stroke") <;>
        simp [hf, hst] at h1 h2 ⊢
      · exact h1
      · constructor
        · intro hfe; exact absurd hfe h1
        · intro hfn; exact absurd hfn h2
      · rename_i f s
        by_cases hse : s = ""
        · subst hse
          simp_all
        · exact Or.inr hse

theorem descList_repairList_eq (cs : List XmlNode) :
    descList (IconExtractor.repairList cs) =
      cs.flatMap (fun c =>
        IconExtractor.repairTree c :: (IconExtractor.repairTree c).descendants) := by
  induction cs with
  | nil => rfl
  | cons c rest ih =>
    simp only [IconExtractor.repairList, descList, ih, List.flatMap_cons]

theorem repairTree_visible : ∀ (n : XmlNode), ∀ p : XmlNode,
    (p = IconExtractor.repairTree n ∨ p ∈ (IconExtractor.repairTree n).descendants) →
    IconExtractor.primRepairTags.contains p.tag = true → visiblePrim p = true
  | .elem t a cs => by
    intro p hp hprim
    rcases hp with rfl | hp
    · exact fixAttrs_visible t a hprim
    · have hd : (IconExtractor.repairTree (XmlNode.elem t a cs)).descendants =
          descList (IconExtractor.repairList cs) := rfl
      rw [hd, descList_repairList_eq, List.mem_flatMap] at hp
      obtain ⟨c, hc, hpc⟩ := hp
      rcases List.mem_cons.mp hpc with rfl | hdesc
      · exact repairTree_visible c _ (Or.inl rfl) hprim
      · exact repairTree_visible c p (Or.inr hdesc) hprim
termination_by n => sizeOf n
decreasing_by
  all_goals
    (have hlt := List.sizeOf_lt_of_mem hc; simp only [XmlNode.elem.sizeOf_spec]; omega)

/-- **C2, amended.**  The repair pass of `IconExtractor.createIcon` guarantees
visibility for every drawing primitive *strictly inside* the cloned candidate:
each such primitive resolves to an explicit non-`none` fill or to a stroke.
The candidate element itself (the direct-path strategy wraps a bare primitive)
is not selected by the clone's `querySelectorAll` and is not repaired — nor
are fragments of the whole-document fallback or of `AdvancedIconExtractor`,
which never run a repair — so the original claim fails there, as the
counterexample shows. -/
theorem repairClone_descendants_visible (element : XmlNode) :
    ∀ p ∈ (IconExtractor.repairClone element).descendants,
      IconExtractor.primRepairTags.contains p.tag = true → visiblePrim p = true := by
  cases element with
  | elem t a cs =>
    intro p hp hprim
    have hd : (IconExtractor.repairClone (XmlNode.elem t a cs)).descendants =
        descList (IconExtractor.repairList cs) := rfl
    rw [hd, descList_repairList_eq, List.mem_flatMap] at hp
    obtain ⟨c, hc, hpc⟩ := hp
    rcases List.mem_cons.mp hpc with rfl | hdesc
    · exact repairTree_visible c _ (Or.inl rfl) hprim
    · exact repairTree_visible c p (Or.inr hdesc) hprim

def exRepairGroup : XmlNode :=
  .elem ("g") []
    [.elem ("path") [("d", "M2 2 L22 2 L22 22 L2 22 Z")] [],
     .elem ("path") [("d", "M3 3 L20 3 L20 20 L3 20 Z"), ("fill", "none")] []]

def exRepairedPath : XmlNode :=
  .elem ("path") [("d", "M2 2 L22 2 L22 22 L2 22 Z"), ("fill", "currentColor")] []

theorem repairClone_descendants_visible_witness :
    exRepairedPath ∈ (IconExtractor.repairClone exRepairGroup).descendants ∧
    IconExtractor.primRepairTags.contains exRepairedPath.tag = true ∧
    visiblePrim exRepairedPath = true :=
  ⟨by decide, by decide,
   repairClone_descendants_visible exRepairGroup exRepairedPath (by decide) (by decide)⟩

/-! ## C3: duplicate candidates across strategies, and the dedup pass -/

def dupGroup : XmlNode :=
  .elem ("g") [("id", "a")] [.elem ("path") [("d", "M2 2 L22 2 L22 22 Z")] []]

def dupRoot : XmlNode := .elem ("svg") [] [dupGroup]

/-- **C3, counterexample.**  With a single valid named group and no symbols,
the symbol strategy yields 0 (< 5), so the named-group strategy emits the
group; the total is then 1 (< 3), so the generic-group strategy runs over
*all* groups and emits the very same element a second time: discovery emits
two candidates wrapping the identical source element instance. -/
theorem discovery_emits_duplicate_candidates :
    SmartIconExtractor.discoveredElements dupRoot = [dupGroup, dupGroup] ∧
    ¬ (SmartIconExtractor.discoveredElements dupRoot).Nodup := by
  exact ⟨by decide, by decide⟩

theorem dedupIcons_pairwise (icons : List ExtractedIcon) :
    (SmartIconExtractor.dedupIcons icons).Pairwise
      (fun x y => SmartIconExtractor.near x y = false) := by
  unfold SmartIconExtractor.dedupIcons
  rw [List.pairwise_map]
  have henum : icons.enum.Pairwise (fun p q : Nat × ExtractedIcon => p.1 < q.1) := by
    have h1 := List.pairwise_lt_range icons.length
    rw [← List.enum_map_fst icons, List.pairwise_map] at h1
    exact h1
  refine (henum.filter _).imp_of_mem ?_
  intro p q hp hq hlt
  rw [List.mem_filter] at hp hq
  obtain ⟨hpe, _⟩ := hp
  obtain ⟨_, hqk⟩ := hq
  rw [beq_iff_eq] at hqk
  by_contra hne
  rw [Bool.not_eq_false] at hne
  have hfi : icons.findIdx (fun other => SmartIconExtractor.near other q.2) = q.1 := by
    rw [List.findIdx_eq_findIdx?, hqk]
  have hplt : p.1 < icons.findIdx (fun other => SmartIconExtractor.near other q.2) := by
    rw [hfi]; exact hlt
  have hfalse := List.not_of_lt_findIdx hplt
  have hget : icons[p.1]? = some p.2 := List.mem_enum_iff_getElem?.mp hpe
  rw [List.getElem?_eq_some] at hget
  obtain ⟨hb, hgb⟩ := hget
  rw [hgb] at hfalse
  rw [hfalse] at hne
  exact Bool.false_ne_true hne

/-- **C3, amended.**  Discovery *can* emit two candidates wrapping the same
element (counterexample above); what holds is that the returned fragment list
is free of near-duplicates: after the length-based deduplication pass, every
two returned fragments differ in serialized length by at least 50 characters —
in particular the duplicate fragment produced from a re-discovered element
(whose content is identical) is always dropped. -/
theorem extractIconsFromSVG_no_near_duplicates (doc : XmlNode) (fileName : String)
    (now : Nat) :
    (SmartIconExtractor.extractIconsFromSVG doc fileName now).Pairwise
      (fun x y => SmartIconExtractor.near x y = false) := by
  unfold SmartIconExtractor.extractIconsFromSVG
  split
  · exact List.Pairwise.nil
  · split
    · exact List.Pairwise.nil
    · dsimp only
      exact (dedupIcons_pairwise _).sublist (List.take_sublist _ _)

/-! ## C9: the source store is never mutated -/

namespace DomStore

/-- The child-cloning loop of `cloneNode` as a named function (definitionally
the fold inlined in `cloneNode`). -/
def cloneFold (fuel : Nat) (cs : List Nat) (init : Dom × List Nat) : Dom × List Nat :=
  cs.foldl (fun acc c =>
    match cloneNode fuel acc.1 c with
    | (d1, some cid) => (d1, acc.2 ++ [cid])
    | (d1, none) => (d1, acc.2)) init

theorem cloneNode_succ (fuel : Nat) (d : Dom) (i : Nat) :
    cloneNode (fuel + 1) d i =
      (match d.lookup i with
       | none => (d, none)
       | some nd =>
         let r := cloneFold fuel nd.children (d, [])
         let a := r.1.alloc { nd with children := r.2 }
         (a.1, some a.2)) := rfl

/-- Every node at an id at or above `b` has only children at or above `b`:
the freshly cloned region of the store is closed, so the repair loop can only
ever reach fresh ids. -/
def FreshClosed (b : Nat) (d : Dom) : Prop :=
  ∀ p ∈ d.store, b ≤ p.1 → ∀ c ∈ p.2.children, b ≤ c

theorem lookup_setAttribute_of_ne (d : Dom) (i : Nat) (k v : String) (j : Nat)
    (h : j ≠ i) : (d.setAttribute i k v).lookup j = d.lookup j := by
  unfold Dom.setAttribute Dom.lookup
  rw [List.find?_map]
  have hcomp : ((fun p : Nat × NodeData => p.1 == j) ∘
      (fun p : Nat × NodeData =>
        if p.1 == i then (p.1, { p.2 with attrs := setAttr p.2.attrs k v }) else p)) =
      (fun p : Nat × NodeData => p.1 == j) := by
    funext p
    by_cases hh : p.1 = i <;> simp [hh]
  rw [hcomp]
  cases hfind : d.store.find? (fun p => p.1 == j)
  · simp
  next q =>
    have hq := List.find?_some hfind
    simp only [beq_iff_eq] at hq
    have hne : ¬ q.1 = i := by rw [hq]; exact h
    simp [hne]

theorem repairStepFill_frame (d : Dom) (i j : Nat) (h : j ≠ i) :
    (repairStepFill d i).lookup j = d.lookup j := by
  unfold repairStepFill
  cases d.lookup i with
  | none => rfl
  | some nd =>
    dsimp only
    split
    · exact lookup_setAttribute_of_ne d i _ _ j h
    · rfl

theorem repairStepStroke_frame (d : Dom) (i j : Nat) (h : j ≠ i) :
    (repairStepStroke d i).lookup j = d.lookup j := by
  unfold repairStepStroke
  cases d.lookup i with
  | none => rfl
  | some nd =>
    dsimp only
    split
    · rw [lookup_setAttribute_of_ne _ i _ _ j h, lookup_setAttribute_of_ne d i _ _ j h]
    · rfl

theorem repairStep_frame (d : Dom) (i j : Nat) (h : j ≠ i) :
    (repairStep d i).lookup j = d.lookup j := by
  unfold repairStep
  rw [repairStepStroke_frame _ i j h, repairStepFill_frame d i j h]

theorem foldl_repairStep_frame :
    ∀ (prims : List Nat) (d : Dom) (b j : Nat), (∀ i ∈ prims, b ≤ i) → j < b →
      (prims.foldl repairStep d).lookup j = d.lookup j := by
  intro prims
  induction prims with
  | nil => intro d b j _ _; rfl
  | cons i rest ih =>
    intro d b j hall hj
    rw [List.foldl_cons]
    rw [ih (repairStep d i) b j (fun x hx => hall x (List.mem_cons_of_mem i hx)) hj]
    exact repairStep_frame d i j (by have := hall i (List.mem_cons_self i rest); omega)

theorem lookup_mem (d : Dom) (i : Nat) (nd : NodeData) (h : d.lookup i = some nd) :
    (i, nd) ∈ d.store := by
  unfold Dom.lookup at h
  cases hfind : d.store.find? (fun p => p.1 == i) with
  | none => rw [hfind] at h; cases h
  | some q =>
    rw [hfind] at h
    have hq1 := List.find?_some hfind
    simp only [beq_iff_eq] at hq1
    have hq2 : q.2 = nd := by simpa using h
    have hmem := List.mem_of_find?_eq_some hfind
    have hq : q = (i, nd) := by cases q; simp_all
    rw [← hq]
    exact hmem

theorem descIds_spec : ∀ (fuel : Nat) (d : Dom) (i b : Nat), FreshClosed b d → b ≤ i →
    ∀ j ∈ descIds fuel d i, b ≤ j := by
  intro fuel
  induction fuel with
  | zero => intro d i b _ _ j hj; simp [descIds] at hj
  | succ fuel ih =>
    intro d i b hf hbi j hj
    unfold descIds at hj
    cases hlk : d.lookup i with
    | none => rw [hlk] at hj; simp at hj
    | some nd =>
      rw [hlk] at hj
      dsimp only at hj
      rw [List.mem_flatMap] at hj
      obtain ⟨c, hc, hjc⟩ := hj
      have hcb : b ≤ c := hf (i, nd) (lookup_mem d i nd hlk) hbi c hc
      rcases List.mem_cons.mp hjc with rfl | hj2
      · exact hcb
      · exact ih d c b hf hcb j hj2

/-- The induction statement for `cloneNode` at a given fuel: cloning only
allocates ids at or above the old `nextId`, preserves every lookup below `b`,
keeps the fresh region closed, and returns a fresh id. -/
def CloneNodeSpec (fuel : Nat) : Prop :=
  ∀ (d : Dom) (i b : Nat) (d1 : Dom) (r : Option Nat),
    cloneNode fuel d i = (d1, r) → b ≤ d.nextId → FreshClosed b d →
    d.nextId ≤ d1.nextId ∧ (∀ j, j < b → d1.lookup j = d.lookup j) ∧
    FreshClosed b d1 ∧ ∀ nid, r = some nid → b ≤ nid ∧ nid < d1.nextId

theorem cloneFold_spec (fuel : Nat) (h : CloneNodeSpec fuel) :
    ∀ (cs : List Nat) (d : Dom) (acc : List Nat) (b : Nat),
      b ≤ d.nextId → FreshClosed b d → (∀ c ∈ acc, b ≤ c) →
      d.nextId ≤ (cloneFold fuel cs (d, acc)).1.nextId ∧
      (∀ j, j < b → (cloneFold fuel cs (d, acc)).1.lookup j = d.lookup j) ∧
      FreshClosed b (cloneFold fuel cs (d, acc)).1 ∧
      ∀ c ∈ (cloneFold fuel cs (d, acc)).2, b ≤ c := by
  intro cs
  induction cs with
  | nil => intro d acc b _ hf hacc; exact ⟨le_refl _, fun _ _ => rfl, hf, hacc⟩
  | cons c rest ih =>
    intro d acc b hb hf hacc
    have hstep : cloneFold fuel (c :: rest) (d, acc) =
        cloneFold fuel rest (match cloneNode fuel d c with
          | (d1, some cid) => (d1, acc ++ [cid])
          | (d1, none) => (d1, acc)) := by
      unfold cloneFold
      rw [List.foldl_cons]
    rw [hstep]
    cases hcn : cloneNode fuel d c with
    | mk d1 o =>
      obtain ⟨h1, h2, h3, h4⟩ := h d c b d1 o hcn hb hf
      cases o with
      | some cid =>
        dsimp only
        have haccc : ∀ x ∈ acc ++ [cid], b ≤ x := by
          intro x hx
          rcases List.mem_append.mp hx with hx1 | hx2
          · exact hacc x hx1
          · obtain rfl := List.mem_singleton.mp hx2
            exact (h4 x rfl).1
        obtain ⟨g1, g2, g3, g4⟩ := ih d1 (acc ++ [cid]) b (hb.trans h1) h3 haccc
        exact ⟨h1.trans g1, fun j hj => (g2 j hj).trans (h2 j hj), g3, g4⟩
      | none =>
        dsimp only
        obtain ⟨g1, g2, g3, g4⟩ := ih d1 acc b (hb.trans h1) h3 hacc
        exact ⟨h1.trans g1, fun j hj => (g2 j hj).trans (h2 j hj), g3, g4⟩

theorem cloneNode_spec : ∀ fuel, CloneNodeSpec fuel := by
  intro fuel
  induction fuel with
  | zero =>
    intro d i b d1 r heq hb hf
    cases heq
    exact ⟨le_refl _, fun _ _ => rfl, hf, by simp⟩
  | succ fuel ih =>
    intro d i b d1 r heq hb hf
    rw [cloneNode_succ] at heq
    cases hlk : d.lookup i with
    | none =>
      rw [hlk] at heq
      cases heq
      exact ⟨le_refl _, fun _ _ => rfl, hf, by simp⟩
    | some nd =>
      rw [hlk] at heq
      dsimp only at heq
      cases hfold : cloneFold fuel nd.children (d, []) with
      | mk d2 cids =>
        rw [hfold] at heq
        dsimp only [Dom.alloc] at heq
        cases heq
        have hspec := cloneFold_spec fuel ih nd.children d [] b hb hf (by simp)
        rw [hfold] at hspec
        dsimp only at hspec
        obtain ⟨g1, g2, g3, g4⟩ := hspec
        refine ⟨by dsimp only; omega, ?_, ?_, ?_⟩
        · intro j hj
          have hne : (d2.nextId == j) = false := by
            simp only [beq_eq_false_iff_ne]
            omega
          unfold Dom.lookup
          dsimp only
          rw [List.find?_cons_of_neg _ (by simp [hne])]
          exact g2 j hj
        · intro p hp hbp
          rcases List.mem_cons.mp hp with rfl | hp2
          · intro c hc
            exact g4 c hc
          · exact g3 p hp2 hbp
        · intro nid hnid
          obtain rfl := Option.some.inj hnid
          refine ⟨by omega, by dsimp only; omega⟩

/-- **C9.**  `createIconClone` — the clone-and-repair fragment-synthesis steps
of `IconExtractor.createIcon` (lines 73-88), run over an explicit mutable node
store — never mutates the parsed source document: all cloning allocates fresh
ids, the visibility-repair `setAttribute` calls target only descendants of the
detached clone, and every node id that existed before the call still looks up
to exactly the same tag, attributes and children afterwards, so later
strategies scan the same tree earlier strategies saw. -/
theorem createIconClone_frame (d : Dom) (fuel : Nat) (cand : Nat)
    (hwf : ∀ p ∈ d.store, p.1 < d.nextId) :
    ∀ j, j < d.nextId → ((createIconClone d fuel cand).1).lookup j = d.lookup j := by
  intro j hj
  have hf : FreshClosed d.nextId d := by
    intro p hp hbp
    have := hwf p hp
    omega
  unfold createIconClone
  cases hcn : cloneNode fuel d cand with
  | mk d1 o =>
    obtain ⟨h1, h2, h3, h4⟩ :=
      cloneNode_spec fuel d cand d.nextId d1 o hcn (le_refl _) hf
    cases o with
    | none => exact h2 j hj
    | some cid =>
      dsimp only
      have hcid : d.nextId ≤ cid := (h4 cid rfl).1
      have hprims : ∀ i ∈ (descIds fuel d1 cid).filter (isPrimId d1), d.nextId ≤ i := by
        intro i hi
        exact descIds_spec fuel d1 cid d.nextId h3 hcid i (List.mem_filter.mp hi).1
      rw [foldl_repairStep_frame _ d1 d.nextId j hprims hj]
      exact h2 j hj

/-- A small concrete store: an `svg` root (id 0) containing a `g` (id 1)
containing a `path` with `fill="none"` (id 2). -/
def exDom : Dom :=
  { store := [(0, { tag := "svg", attrs := [], children := [1] }),
              (1, { tag := "g", attrs := [("id", "a")], children := [2] }),
              (2, { tag := "path",
                    attrs := [("d", "M2 2 L22 2 L22 22 Z"), ("fill", "none")],
                    children := [] })],
    nextId := 3 }

/-- Witness: cloning-and-repairing the `g` leaves the source path (id 2)
byte-for-byte unchanged, while the freshly cloned path (id 3) received the
repair (`stroke="currentColor"`). -/
theorem createIconClone_frame_witness :
    ((createIconClone exDom 10 1).1).lookup 2 = exDom.lookup 2 ∧
    (((createIconClone exDom 10 1).1).lookup 2).map (fun nd => attrLookup nd.attrs ("stroke"))
      = some none ∧
    (((createIconClone exDom 10 1).1).lookup 3).map (fun nd => attrLookup nd.attrs ("stroke"))
      = some (some ("currentColor")) :=
  ⟨createIconClone_frame exDom 10 1 (by decide) 2 (by decide), by decide, by decide⟩

end DomStore

/-! ## C7: grid clustering properties -/

theorem mem_firstSeen (ks : List Int) (x : Int) :
    x ∈ AdvancedIconExtractor.firstSeen ks ↔ x ∈ ks := by
  induction ks with
  | nil => simp [AdvancedIconExtractor.firstSeen]
  | cons k rest ih =>
    unfold AdvancedIconExtractor.firstSeen
    constructor
    · intro h
      rcases List.mem_cons.mp h with rfl | h2
      · exact List.mem_cons_self _ _
      · exact List.mem_cons_of_mem _ (ih.mp (List.mem_of_mem_filter h2))
    · intro h
      rcases List.mem_cons.mp h with rfl | h2
      · exact List.mem_cons_self _ _
      · by_cases hx : x = k
        · subst hx; exact List.mem_cons_self _ _
        · refine List.mem_cons_of_mem _ (List.mem_filter.mpr ⟨ih.mpr h2, by simp [hx]⟩)

theorem mem_jsKeyOrder (ks : List Int) (x : Int) (h : x ∈ ks) :
    x ∈ AdvancedIconExtractor.jsKeyOrder ks := by
  unfold AdvancedIconExtractor.jsKeyOrder
  rw [List.mem_append]
  by_cases hx : 0 ≤ x
  · left
    exact (List.perm_insertionSort _ _).symm.subset
      (List.mem_filter.mpr ⟨(mem_firstSeen ks x).mpr h, by simpa using hx⟩)
  · right
    exact List.mem_filter.mpr ⟨(mem_firstSeen ks x).mpr h, by simp; omega⟩

/-- **C7.**  Grid clustering partitions the surviving positioned elements into
rows keyed by the y-coordinate quantized to the nearest multiple of 100 (the
row tolerance), sorts every row in ascending x order, emits at most 10
candidates per row, and every emitted icon is tagged as a grid cell whose
dimensions come from the computed bounding box of one surviving element. -/
theorem detectGridPattern_grid_properties (gb : XmlNode → Option AdvancedIconExtractor.BBox)
    (now : Nat) (elements : List XmlNode) (svgContainer : XmlNode) :
    (∀ row ∈ AdvancedIconExtractor.gridRows (AdvancedIconExtractor.gridPositions gb elements),
      (∀ p ∈ row, ∀ q ∈ row,
        AdvancedIconExtractor.rowKey p.y = AdvancedIconExtractor.rowKey q.y) ∧
      List.Sorted (fun a b : AdvancedIconExtractor.GridPos => a.x ≤ b.x)
        (AdvancedIconExtractor.sortRow row) ∧
      ((AdvancedIconExtractor.sortRow row).take 10).length ≤ 10) ∧
    (∀ p ∈ AdvancedIconExtractor.gridPositions gb elements,
      (AdvancedIconExtractor.gridPositions gb elements).filter
        (fun q => AdvancedIconExtractor.rowKey q.y == AdvancedIconExtractor.rowKey p.y) ∈
          AdvancedIconExtractor.gridRows (AdvancedIconExtractor.gridPositions gb elements) ∧
      p ∈ (AdvancedIconExtractor.gridPositions gb elements).filter
        (fun q => AdvancedIconExtractor.rowKey q.y == AdvancedIconExtractor.rowKey p.y)) ∧
    (∀ icon ∈ AdvancedIconExtractor.detectGridPattern gb now elements svgContainer,
      (∃ rc cc : Nat, icon.name = "grid-icon-" ++ toString rc ++ "-" ++ toString cc) ∧
      ∃ p ∈ AdvancedIconExtractor.gridPositions gb elements,
        icon.width = p.width ∧ icon.height = p.height) := by
  refine ⟨?_, ?_, ?_⟩
  · intro row hrow
    rw [AdvancedIconExtractor.gridRows, List.mem_map] at hrow
    obtain ⟨k, _, rfl⟩ := hrow
    refine ⟨?_, ?_, ?_⟩
    · intro p hp q hq
      have hpk := (List.mem_filter.mp hp).2
      have hqk := (List.mem_filter.mp hq).2
      rw [beq_iff_eq] at hpk hqk
      rw [hpk, hqk]
    · haveI : IsTotal AdvancedIconExtractor.GridPos (fun a b => a.x ≤ b.x) :=
        ⟨fun a b => le_total a.x b.x⟩
      haveI : IsTrans AdvancedIconExtractor.GridPos (fun a b => a.x ≤ b.x) :=
        ⟨fun _ _ _ hab hbc => le_trans hab hbc⟩
      exact List.sorted_insertionSort _ _
    · rw [List.length_take]
      exact Nat.min_le_left _ _
  · intro p hp
    constructor
    · rw [AdvancedIconExtractor.gridRows, List.mem_map]
      exact ⟨AdvancedIconExtractor.rowKey p.y,
        mem_jsKeyOrder _ _ (List.mem_map.mpr ⟨p, hp, rfl⟩), rfl⟩
    · exact List.mem_filter.mpr ⟨hp, by simp⟩
  · intro icon hicon
    unfold AdvancedIconExtractor.detectGridPattern at hicon
    split at hicon
    · cases hicon
    · have hicon2 := (List.take_sublist _ _).subset hicon
      rw [List.mem_flatMap] at hicon2
      obtain ⟨r, hr, hicon3⟩ := hicon2
      rw [List.mem_filterMap] at hicon3
      obtain ⟨c, hc, hgio⟩ := hicon3
      unfold AdvancedIconExtractor.gridIconOf at hgio
      dsimp only at hgio
      split at hgio
      · cases hgio
        have hr2 : r.2 ∈ AdvancedIconExtractor.gridRows
            (AdvancedIconExtractor.gridPositions gb elements) := by
          obtain ⟨hlt, hget⟩ := List.getElem?_eq_some.mp (List.mem_enum_iff_getElem?.mp hr)
          rw [← hget]
          exact List.getElem_mem hlt
        have hc2 : c.2 ∈ AdvancedIconExtractor.sortRow r.2 := by
          obtain ⟨hlt, hget⟩ := List.getElem?_eq_some.mp (List.mem_enum_iff_getElem?.mp hc)
          have hmem : c.2 ∈ (AdvancedIconExtractor.sortRow r.2).take 10 := by
            rw [← hget]
            exact List.getElem_mem hlt
          exact (List.take_sublist _ _).subset hmem
        have hc3 : c.2 ∈ r.2 := (List.perm_insertionSort _ _).subset hc2
        rw [AdvancedIconExtractor.gridRows, List.mem_map] at hr2
        obtain ⟨k, _, hk⟩ := hr2
        rw [← hk] at hc3
        exact ⟨⟨r.1, c.1, rfl⟩, c.2, List.mem_of_mem_filter hc3, rfl, rfl⟩
      · cases hgio

def exGridPath : XmlNode := .elem ("path") [("d", "M2 2 L22 2 L22 22 L2 22 Z")] []

def exG1 : XmlNode := .elem ("g") [("class", "a")] [exGridPath]

def exG2 : XmlNode := .elem ("g") [("class", "b")] [exGridPath]

def exG3 : XmlNode := .elem ("g") [("class", "c")] [exGridPath]

/-- A bounding-box oracle placing the first two groups in one 100-unit row
band (left-to-right out of order) and the third in another. -/
def exGb : XmlNode → Option AdvancedIconExtractor.BBox := fun n =>
  match n.getAttribute ("class") with
  | some c =>
    if c = "a" then some ⟨50, 10, 20, 20⟩
    else if c = "b" then some ⟨0, 0, 20, 20⟩
    else if c = "c" then some ⟨0, 170, 20, 20⟩
    else none
  | none => none

def exSvgC7 : XmlNode := .elem ("svg") [("viewBox", "0 0 200 200")] [exG1, exG2, exG3]

def exRowA : List AdvancedIconExtractor.GridPos :=
  [⟨exG1, 50, 10, 20, 20⟩, ⟨exG2, 0, 0, 20, 20⟩]

theorem detectGridPattern_grid_properties_witness :
    exRowA ∈ AdvancedIconExtractor.gridRows
      (AdvancedIconExtractor.gridPositions exGb [exG1, exG2, exG3]) ∧
    List.Sorted (fun a b : AdvancedIconExtractor.GridPos => a.x ≤ b.x)
      (AdvancedIconExtractor.sortRow exRowA) ∧
    AdvancedIconExtractor.sortRow exRowA =
      [⟨exG2, 0, 0, 20, 20⟩, ⟨exG1, 50, 10, 20, 20⟩] ∧
    ((AdvancedIconExtractor.sortRow exRowA).take 10).length ≤ 10 ∧
    AdvancedIconExtractor.rowKey (10 : Int) = AdvancedIconExtractor.rowKey (0 : Int) := by
  have h := detectGridPattern_grid_properties exGb 0 [exG1, exG2, exG3] exSvgC7
  exact ⟨by decide, (h.1 exRowA (by decide)).2.1, by decide,
    (h.1 exRowA (by decide)).2.2, by decide⟩

/-! ## C6: three-symbols scenario -/

/-- A `<symbol id="...">...</symbol>` element. -/
def symNode (idStr : String) (body : List XmlNode) : XmlNode :=
  .elem ("symbol") [("id", idStr)] body

def threeSymRoot (b1 b2 b3 : List XmlNode) : XmlNode :=
  .elem ("svg") [] [symNode ("home") b1, symNode ("user") b2, symNode ("star") b3]

def threeSymDoc (b1 b2 b3 : List XmlNode) : XmlNode :=
  .elem ("#document") [] [threeSymRoot b1 b2 b3]

/-- On a parsed document whose single child is the root element, the first
`querySelector` hit for that element's tag is the root itself. -/
theorem querySelector_doc_root (root : XmlNode) (h : (root.tag == "svg") = true) :
    querySelector (.elem ("#document") [] [root]) [tagSel ("svg")] = some root := by
  unfold querySelector querySelectorAll XmlNode.descendantsWP
  simp only [descListWP]
  simp [List.filter, selMatches, tagSel, h]

example (b1 b2 b3 : List XmlNode) :
    querySelector (threeSymDoc b1 b2 b3) [tagSel ("svg")] = some (threeSymRoot b1 b2 b3) :=
  querySelector_doc_root _ (by rfl)

/-- Under the hypothesis that the symbol selector returns exactly the three
symbols and each is a valid icon element, strategy 1 enumerates them with
their `forEach` indices. -/
theorem strat1Cands_three (b1 b2 b3 : List XmlNode)
    (hsym : querySelectorAll (threeSymRoot b1 b2 b3) [tagSel ("symbol")] =
      [symNode ("home") b1, symNode ("user") b2, symNode ("star") b3])
    (hv1 : SmartIconExtractor.isValidIconElement (symNode ("home") b1) = true)
    (hv2 : SmartIconExtractor.isValidIconElement (symNode ("user") b2) = true)
    (hv3 : SmartIconExtractor.isValidIconElement (symNode ("star") b3) = true) :
    SmartIconExtractor.strat1Cands (threeSymRoot b1 b2 b3) =
      [(0, symNode ("home") b1), (1, symNode ("user") b2), (2, symNode ("star") b3)] := by
  unfold SmartIconExtractor.strat1Cands
  rw [hsym]
  simp [List.enum, List.enumFrom, List.filter, hv1, hv2, hv3]

/-- **C6 (amended).**  Three valid symbols `home`/`user`/`star` are all
discovered by the symbol strategy and humanized to "Home"/"User"/"Star" with
category "Symbol", and no group or path strategy contributes — PROVIDED the
three wrapped fragments differ pairwise by at least 50 characters in length,
since the post-hoc deduplication (SmartIconExtractor.tsx lines 505-510) drops
any fragment within 49 characters of an earlier one. -/
theorem three_symbols_extracted (b1 b2 b3 : List XmlNode) (fileName : String) (now : Nat)
    (hpe : querySelector (threeSymDoc b1 b2 b3) [tagSel ("parsererror")] = none)
    (hsym : querySelectorAll (threeSymRoot b1 b2 b3) [tagSel ("symbol")] =
      [symNode ("home") b1, symNode ("user") b2, symNode ("star") b3])
    (hg : querySelectorAll (threeSymRoot b1 b2 b3) [⟨none, "g", some ("id")⟩] = [])
    (hv1 : SmartIconExtractor.isValidIconElement (symNode ("home") b1) = true)
    (hv2 : SmartIconExtractor.isValidIconElement (symNode ("user") b2) = true)
    (hv3 : SmartIconExtractor.isValidIconElement (symNode ("star") b3) = true)
    (h12 : 50 <= ((((SmartIconExtractor.createStandaloneIcon (symNode ("home") b1)
        ("0 0 24 24")).length : Int) -
      ((SmartIconExtractor.createStandaloneIcon (symNode ("user") b2)
        ("0 0 24 24")).length : Int)).natAbs))
    (h13 : 50 <= ((((SmartIconExtractor.createStandaloneIcon (symNode ("home") b1)
        ("0 0 24 24")).length : Int) -
      ((SmartIconExtractor.createStandaloneIcon (symNode ("star") b3)
        ("0 0 24 24")).length : Int)).natAbs))
    (h23 : 50 <= ((((SmartIconExtractor.createStandaloneIcon (symNode ("user") b2)
        ("0 0 24 24")).length : Int) -
      ((SmartIconExtractor.createStandaloneIcon (symNode ("star") b3)
        ("0 0 24 24")).length : Int)).natAbs)) :
    (SmartIconExtractor.extractIconsFromSVG (threeSymDoc b1 b2 b3) fileName now).length = 3 ∧
    (SmartIconExtractor.extractIconsFromSVG (threeSymDoc b1 b2 b3) fileName now).map
      (fun i => i.name) = ["Home", "User", "Star"] ∧
    (SmartIconExtractor.extractIconsFromSVG (threeSymDoc b1 b2 b3) fileName now).map
      (fun i => i.category) = ["Symbol", "Symbol", "Symbol"] := by
  set s1 := symNode ("home") b1 with hs1
  set s2 := symNode ("user") b2 with hs2
  set s3 := symNode ("star") b3 with hs3
  set a1 := SmartIconExtractor.mkSymbolIcon ("0 0 24 24") fileName now (0, s1) with ha1
  set a2 := SmartIconExtractor.mkSymbolIcon ("0 0 24 24") fileName now (1, s2) with ha2
  set a3 := SmartIconExtractor.mkSymbolIcon ("0 0 24 24") fileName now (2, s3) with ha3
  have hsvg1 : a1.svgContent = SmartIconExtractor.createStandaloneIcon s1 ("0 0 24 24") := rfl
  have hsvg2 : a2.svgContent = SmartIconExtractor.createStandaloneIcon s2 ("0 0 24 24") := rfl
  have hsvg3 : a3.svgContent = SmartIconExtractor.createStandaloneIcon s3 ("0 0 24 24") := rfl
  have hn11 : SmartIconExtractor.near a1 a1 = true := by
    simp [SmartIconExtractor.near]
  have hn22 : SmartIconExtractor.near a2 a2 = true := by
    simp [SmartIconExtractor.near]
  have hn33 : SmartIconExtractor.near a3 a3 = true := by
    simp [SmartIconExtractor.near]
  have hn12 : SmartIconExtractor.near a1 a2 = false := by
    simp only [SmartIconExtractor.near, hsvg1, hsvg2]
    simp only [decide_eq_false_iff_not]
    omega
  have hn13 : SmartIconExtractor.near a1 a3 = false := by
    simp only [SmartIconExtractor.near, hsvg1, hsvg3]
    simp only [decide_eq_false_iff_not]
    omega
  have hn23 : SmartIconExtractor.near a2 a3 = false := by
    simp only [SmartIconExtractor.near, hsvg2, hsvg3]
    simp only [decide_eq_false_iff_not]
    omega
  have hext : SmartIconExtractor.extractIconsFromSVG (threeSymDoc b1 b2 b3) fileName now =
      [a1, a2, a3] := by
    unfold SmartIconExtractor.extractIconsFromSVG
    rw [hpe]
    simp only [Option.isSome_none, Bool.false_eq_true, if_false]
    rw [show querySelector (threeSymDoc b1 b2 b3) [tagSel ("svg")] =
      some (threeSymRoot b1 b2 b3) from querySelector_doc_root _ (by rfl)]
    dsimp only
    rw [show jsOr ((threeSymRoot b1 b2 b3).getAttribute ("viewBox")) ("0 0 24 24") =
      "0 0 24 24" from rfl]
    rw [strat1Cands_three b1 b2 b3 hsym hv1 hv2 hv3]
    rw [show SmartIconExtractor.strat2Cands (threeSymRoot b1 b2 b3) = [] by
      unfold SmartIconExtractor.strat2Cands
      rw [hg]
      rfl]
    simp only [List.map_cons, List.map_nil, List.length_cons, List.length_nil]
    norm_num
    rw [show SmartIconExtractor.dedupIcons [a1, a2, a3] = [a1, a2, a3] by
      unfold SmartIconExtractor.dedupIcons
      simp [List.enum, List.enumFrom, List.findIdx?, List.filter, hn11, hn22, hn33,
        hn12, hn13, hn23]]
    rfl
  rw [hext]
  have hname1 : a1.name = "Home" := by rw [ha1, hs1]; rfl
  have hname2 : a2.name = "User" := by rw [ha2, hs2]; rfl
  have hname3 : a3.name = "Star" := by rw [ha3, hs3]; rfl
  have hcat1 : a1.category = "Symbol" := rfl
  have hcat2 : a2.category = "Symbol" := rfl
  have hcat3 : a3.category = "Symbol" := rfl
  simp [hname1, hname2, hname3, hcat1, hcat2, hcat3]

def sameBody : List XmlNode := [.elem ("path") [("d", "M2 2 L22 2 L22 22 Z")] []]

/-- **C6 (counterexample).**  Three symbols with ids `home`/`user`/`star` and
identical (valid) drawing content yield ONE fragment named "Home", not three:
the length-based deduplication discards the other two symbol fragments, so the
claimed "exactly 3 fragments" fails. -/
theorem three_symbols_collapsed_by_dedup :
    (SmartIconExtractor.extractIconsFromSVG (threeSymDoc sameBody sameBody sameBody)
      ("icons.svg") 1).length = 1 ∧
    (SmartIconExtractor.extractIconsFromSVG (threeSymDoc sameBody sameBody sameBody)
      ("icons.svg") 1).map (fun i => i.name) = ["Home"] := by
  decide

def bodyA : List XmlNode := [.elem ("path") [("d", "M2 2 L22 2 Z9Z")] []]
def bodyB : List XmlNode :=
  [.elem ("path")
    [("d", "M2 2 L22 2 L22 22 L2 22 Z M4 4 L20 4 L20 20 L4 20 Z M6 6 L18 6 L18 18 Z padB")] []]
def bodyC : List XmlNode :=
  [.elem ("path")
    [("d", "M2 2 L22 2 L22 22 L2 22 Z M4 4 L20 4 L20 20 L4 20 Z M6 6 L18 6 L18 18 L6 18 Z M8 8 L16 8 L16 16 L8 16 Z M10 10 L14 10 L14 14 L10 14 Z padCpadCpadC")] []]

/-- Witness for `three_symbols_extracted`: three symbols whose path data
lengths are 14, 80 and 150 characters give wrapped fragments over 50 apart,
and all three icons come out with the humanized names. -/
theorem three_symbols_extracted_witness :
    (SmartIconExtractor.extractIconsFromSVG (threeSymDoc bodyA bodyB bodyC)
      ("icons.svg") 1).length = 3 ∧
    (SmartIconExtractor.extractIconsFromSVG (threeSymDoc bodyA bodyB bodyC)
      ("icons.svg") 1).map (fun i => i.name) = ["Home", "User", "Star"] ∧
    (SmartIconExtractor.extractIconsFromSVG (threeSymDoc bodyA bodyB bodyC)
      ("icons.svg") 1).map (fun i => i.category) = ["Symbol", "Symbol", "Symbol"] :=
  three_symbols_extracted bodyA bodyB bodyC ("icons.svg") 1
    (by decide) (by decide) (by decide) (by decide) (by decide) (by decide)
    (by decide) (by decide) (by decide)
